import Mathlib

/-!
# XrdCpapMon: the xrdcp → MonALISA progress reporter

A shallow embedding of `src/XrdCpapMon.cc`.  The class `XrdCpapMon` becomes a
record of its private fields, every member function becomes a pure function
from the state (and the answers of the outside world) to a status code, a new
state and the trace of calls made to the external collaborators (ApMon, the
resolver, the allocator).

Conventions.
* `long long` arguments are mathematical integers.  The arithmetic on
  `time_t` and `suseconds_t` values (64-bit `long`) wraps at 64 bits, as the
  compiled code does: `wrap64` is applied after every subtraction, addition
  and multiplication.
* `float` and `double` values are modelled exactly: a finite value is the
  rational number it denotes, and the conversions and divisions round to
  nearest, ties to even, at 24 and 53 significant bits.  The exponent range
  is not modelled (every magnitude computed here lies between `2^-64` and
  `2^64`), and neither is the sign of zero.
* A C string is a Lean `String`, one character per byte; the end of the
  string plays the terminating NUL.  A `char *` that may be null is an
  `Option String`.
* What the outside world answers (the clock, the environment, the resolver,
  ApMon throwing or not) is an argument of the function that asks.
* Messages written to `cerr` are not part of the model.
-/

namespace XrdCpapMon

/-! ## Floating point -/

/-- A `float` or `double` value: finite (the rational it denotes), an infinity,
or a NaN. -/
inductive Real64 where
  | fin (q : ℚ)
  | inf (negative : Bool)
  | nan
  deriving DecidableEq

/-- Nearest integer to `q`, ties going to the even neighbour. -/
def roundEven (q : ℚ) : ℤ :=
  let f := ⌊q⌋
  if q - f < 1 / 2 then f
  else if 1 / 2 < q - f then f + 1
  else if f % 2 = 0 then f else f + 1

/-- Round `q` to the nearest value with `p` significant bits, ties to even. -/
def rnd (p : ℕ) (q : ℚ) : ℚ :=
  if q = 0 then 0
  else
    let e : ℤ := Int.log 2 |q|
    let ulp : ℚ := (2 : ℚ) ^ (e - ((p : ℤ) - 1))
    (roundEven (q / ulp) : ℚ) * ulp

/-- The conversion `(float) n` of an integer. -/
def toFloat (n : ℤ) : ℚ := rnd 24 (n : ℚ)

/-- The conversion `(double) n` of an integer. -/
def toDouble (n : ℤ) : ℚ := rnd 53 (n : ℚ)

/-- IEEE division at `p` significant bits.  A zero divisor is the positive
zero (the only zero that arises here). -/
def fdiv (p : ℕ) : Real64 → Real64 → Real64
  | .nan, _ => .nan
  | _, .nan => .nan
  | .inf _, .inf _ => .nan
  | .inf s, .fin b => .inf (s != decide (b < 0))
  | .fin _, .inf _ => .fin 0
  | .fin a, .fin b =>
    if b = 0 then (if a = 0 then .nan else .inf (decide (a < 0)))
    else .fin (rnd p (a / b))

/-! ## Time -/

/-- The libc `struct timeval`. -/
structure timeval where
  tv_sec : ℤ
  tv_usec : ℤ
  deriving DecidableEq

/-- The value of a signed 64-bit register holding `x`: two's-complement wrap
into `[-2^63, 2^63)`. -/
def wrap64 (x : ℤ) : ℤ :=
  (x + 9223372036854775808) % 18446744073709551616 - 9223372036854775808

/-- The macro `MIN_SEND_INTERVAL`. -/
def MIN_SEND_INTERVAL : ℚ := 10

/-! ## C strings -/

/-- The libc `strstr` on character lists: the offset of the first occurrence
of `needle` in `hay`, or `none` (the null pointer) when there is none. -/
def strstr : List Char → List Char → Option ℕ
  | [], needle => if needle.isPrefixOf [] then some 0 else none
  | c :: cs, needle =>
    if needle.isPrefixOf (c :: cs) then some 0
    else (strstr cs needle).map (· + 1)

/-- The literal `"root://"`. -/
def ROOT_SCHEME : String := "root://"

/-- The test `strstr(url, "root://") == url`. -/
def isRemote (url : String) : Bool :=
  decide (strstr url.toList ROOT_SCHEME.toList = some 0)

/-- The scan `for (p = url+7; *p && *p != ':' && *p != '/'; p++, len++);`
started on the text `p` points at: the number of characters before the first
`':'` or `'/'`, or up to the end of the string. -/
def hostLen : List Char → ℕ
  | [] => 0
  | c :: cs => if c ≠ ':' ∧ c ≠ '/' then hostLen cs + 1 else 0

/-- The buffer `host` after `calloc(len+1, 1)` and `strncpy(host, url+7, len)`. -/
def remoteHost (url : String) : String :=
  String.mk ((url.toList.drop 7).take (hostLen (url.toList.drop 7)))

/-! ## External collaborators -/

/-- The ApMon object behind the pointer `apmon`: the configuration it was
built from and the two switches that `Init` sets. -/
structure ApMon where
  conf : String
  confRecheck : Bool
  jobMonitoring : Bool
  deriving DecidableEq

/-- The XDR type tags of `ApMon.h` (a header that is not part of the
repository); only `XDR_REAL64` is used. -/
inductive XdrType where
  | XDR_STRING
  | XDR_INT32
  | XDR_REAL32
  | XDR_REAL64
  deriving DecidableEq

/-- A call made to an external collaborator, with its arguments. -/
inductive Call where
  | setLogLevel (level : String)
  | newApMon (conf : String)
  | gethostname
  | gethostbyname (name : String)
  | sendParameters (bucket : String) (entity : Option String) (nparams : ℤ)
      (params : List String) (types : List XdrType) (values : List (Option Real64))
  | deleteApMon (h : ApMon)
  | deleteParams
  | deleteValues
  | deleteTypes
  deriving DecidableEq

/-- What the outside world answers during `Init`. -/
structure InitWorld where
  /-- The result of `gettimeofday`. -/
  now : timeval
  /-- The process environment: `getenv`. -/
  getenv : String → Option String
  /-- The `try` block around `new ApMon(1, config)`: the object built, or
  `none` when the block throws `runtime_error`. -/
  newApMon : String → Option ApMon
  /-- The call `gethostname`: `none` when it returns non-zero. -/
  gethostname : Option String
  /-- The call `gethostbyname`: `none` for a null result, else `s_addr`. -/
  gethostbyname : String → Option ℕ

/-- What the outside world answers during `PutProgressInfo`. -/
structure PutWorld where
  /-- The result of `gettimeofday`. -/
  now : timeval
  /-- Whether `sendParameters` throws `runtime_error`. -/
  sendThrows : Bool

/-! ## The object -/

/-- The private fields of `class XrdCpapMon`. -/
structure State where
  initdone : Bool
  apmon : Option ApMon
  apmon_nparams : ℤ
  apmon_params : Option (List String)
  apmon_types : Option (List XdrType)
  /-- The array of value pointers; a slot is `none` until it is assigned. -/
  apmon_values : Option (List (Option Real64))
  job_id : Option String
  host_name : Option String
  statichostname : String
  is_src_remote : Bool
  is_dst_remote : Bool
  src_IP : Real64
  dst_IP : Real64
  last_send_time : timeval
  abs_start_time : timeval
  deriving DecidableEq

/-- The outcome of a member function: status code, state afterwards, and the
external calls made, in order. -/
structure Result where
  status : ℤ
  state : State
  trace : List Call
  deriving DecidableEq

/-- The constructor `XrdCpapMon::XrdCpapMon()`.  Its initialiser list leaves
`statichostname`, `last_send_time` and `abs_start_time` uninitialised; their
indeterminate contents are the three arguments. -/
def ctor (statichostname : String) (last_send_time abs_start_time : timeval) : State :=
  { initdone := false, apmon := none, apmon_nparams := 0, apmon_params := none,
    apmon_types := none, apmon_values := none, job_id := none, host_name := none,
    statichostname := statichostname, is_src_remote := false, is_dst_remote := false,
    src_IP := .fin 0, dst_IP := .fin 0,
    last_send_time := last_send_time, abs_start_time := abs_start_time }

/-- The conversion of an `s_addr` (an unsigned 32-bit integer) to `double`. -/
def addrToDouble (a : ℕ) : Real64 := .fin (toDouble ((a % 2 ^ 32 : ℕ) : ℤ))

/-- The block `if(is_src_remote) { ... }` of `Init` (lines 153-163). -/
def resolveSrc (w : InitWorld) (src : String) (local_IP : Real64) (s : State) :
    State × List Call :=
  if s.is_src_remote then
    let host := remoteHost src
    let s := match w.gethostbyname host with
      | some a => { s with src_IP := addrToDouble a }
      | none => s
    ({ s with dst_IP := local_IP }, [Call.gethostbyname host])
  else (s, [])

/-- The block `if(is_dst_remote) { ... }` of `Init` (lines 165-175). -/
def resolveDst (w : InitWorld) (dest : String) (local_IP : Real64) (s : State) :
    State × List Call :=
  if s.is_dst_remote then
    let host := remoteHost dest
    let s := match w.gethostbyname host with
      | some a => { s with dst_IP := addrToDouble a }
      | none => s
    ({ s with src_IP := local_IP }, [Call.gethostbyname host])
  else (s, [])

/-- The assignment of `job_id` (lines 177-181). -/
def resolveJobId (w : InitWorld) (s : State) : State :=
  if (w.getenv "ALIEN_PROC_ID").isSome then { s with job_id := w.getenv "ALIEN_PROC_ID" }
  else if (w.getenv "GRID_JOB_ID").isSome then { s with job_id := w.getenv "GRID_JOB_ID" }
  else s

/-- The allocation and filling of the parameter arrays (lines 183-204). -/
def allocParams (s : State) : State :=
  { s with
    apmon_nparams := 9
    apmon_params := some ["total_size", "moved_bytes", "read_bytes", "written_bytes",
      "speed", "elapsed_time", "percent", "src_IP", "dst_IP"]
    apmon_values := some (List.replicate 9 none)
    apmon_types := some [.XDR_REAL64, .XDR_REAL64, .XDR_REAL64, .XDR_REAL64,
      .XDR_REAL64, .XDR_REAL64, .XDR_REAL64, .XDR_REAL64, .XDR_REAL64] }

/-- The tail of `Init` from line 148 on, entered with a non-null `host_name`. -/
def initAddresses (w : InitWorld) (src dest : String) (hn : String) (s : State)
    (tr : List Call) : Result :=
  let local_IP : Real64 := match w.gethostbyname hn with
    | some a => addrToDouble a
    | none => .fin 0
  let r1 := resolveSrc w src local_IP s
  let r2 := resolveDst w dest local_IP r1.1
  let s := allocParams (resolveJobId w r2.1)
  ⟨0, s, tr ++ [Call.gethostbyname hn] ++ r1.2 ++ r2.2⟩

/-- The part of `Init` from line 121 on, entered with `apmon` constructed. -/
def initHost (w : InitWorld) (src dest : String) (s : State) (tr : List Call) : Result :=
  let s := { s with is_src_remote := isRemote src, is_dst_remote := isRemote dest }
  let s := { s with src_IP := .fin 0, dst_IP := .fin 0 }
  let s := { s with host_name := w.getenv "HOSTNAME" }
  let s := if s.host_name = none then { s with host_name := w.getenv "HOST" } else s
  match s.host_name with
  | none =>
    match w.gethostname with
    | none => ⟨2, s, tr ++ [Call.gethostname]⟩
    | some name =>
      let s := { s with statichostname := name.take 255 }
      let s := { s with host_name := some s.statichostname }
      match s.host_name with
      | none => ⟨2, s, tr ++ [Call.gethostname]⟩
      | some hn => initAddresses w src dest hn s (tr ++ [Call.gethostname])
  | some hn => initAddresses w src dest hn s tr

/-- The member function `XrdCpapMon::Init`. -/
def Init (w : InitWorld) (src dest : String) (debug : ℤ) (s : State) : Result :=
  let s := { s with abs_start_time := w.now }
  match w.getenv "APMON_CONFIG" with
  | none => ⟨1, s, []⟩
  | some cfg =>
    if cfg.length = 0 then ⟨1, s, []⟩
    else
      let tr := [Call.setLogLevel (if debug = 0 then "WARNING" else "DEBUG"), Call.newApMon cfg]
      match w.newApMon cfg with
      | none => ⟨1, { s with apmon := none }, tr⟩
      | some h =>
        let s := { s with apmon := some { h with confRecheck := false, jobMonitoring := false } }
        if s.apmon.isNone then ⟨1, s, tr⟩
        else initHost w src dest s tr

/-- How control leaves a member function declared to return `int`: through a
`return` statement, or by reaching the closing brace without one, which is
undefined behaviour in C++ (the caller may crash or never resume). -/
inductive Exit where
  | returns (status : ℤ)
  | fallsOffEnd
  deriving DecidableEq

/-- The outcome of `DeInit`: the fields and the calls after its last
statement, and how control leaves it. -/
structure DeInitResult where
  state : State
  trace : List Call
  exit : Exit

/-- The member function `XrdCpapMon::DeInit` (lines 212-224).  Its statements
release the transport and the three arrays and null the four pointers; a
`delete` of a null pointer calls nothing.  The three arrays come from
`malloc` and are released with `delete`.  The body ends at line 224 with no
`return` statement although the function is declared `int`. -/
def DeInit (s : State) : DeInitResult :=
  { state := { s with apmon := none, apmon_params := none, apmon_values := none,
                      apmon_types := none }
    trace := (match s.apmon with | some h => [Call.deleteApMon h] | none => [])
      ++ (if s.apmon_params.isSome then [Call.deleteParams] else [])
      ++ (if s.apmon_values.isSome then [Call.deleteValues] else [])
      ++ (if s.apmon_types.isSome then [Call.deleteTypes] else [])
    exit := .fallsOffEnd }

/-- The destructor `XrdCpapMon::~XrdCpapMon`: the external calls it makes. -/
def dtor (s : State) : List Call :=
  if s.initdone then (DeInit s).trace else []

/-- The member function `XrdCpapMon::GetMonLibInfo`: status, name, version,
remarks. -/
def GetMonLibInfo : ℤ × String × String × String :=
  (0, "XrdCpApMon shared lib", "1.0", "")

/-- The integer expression of lines 253-254,
`(now.tv_sec - last.tv_sec) + (now.tv_usec - last.tv_usec) / 1000000`:
64-bit integer arithmetic, the division truncating towards zero. -/
def wholeSeconds (now last : timeval) : ℤ :=
  wrap64 (wrap64 (now.tv_sec - last.tv_sec)
    + (wrap64 (now.tv_usec - last.tv_usec)).tdiv 1000000)

/-- The value `abs_time` of the rate limiter (lines 253-254): the integer
expression cast to `float`. -/
def sinceLastSend (now last : timeval) : ℚ :=
  toFloat (wholeSeconds now last)

/-- The value `abs_time` of the report (lines 260-261): milliseconds since
the start of the transfer, in 64-bit integer arithmetic, cast to `float`. -/
def sinceStart (now start : timeval) : ℚ :=
  toFloat (wrap64 (wrap64 (wrap64 (now.tv_sec - start.tv_sec) * 1000)
    + (wrap64 (now.tv_usec - start.tv_usec)).tdiv 1000))

/-- The nine values of a report, in the order of the slots they are assigned
to (lines 264-280). -/
def reportValues (s : State) (now : timeval) (bytecount size : ℤ) (percentage : Real64) :
    List Real64 :=
  let abs_time := sinceStart now s.abs_start_time
  let total_size : Real64 := .fin (toDouble size)
  let moved_bytes : Real64 := .fin (toDouble bytecount)
  let read_bytes : Real64 := .fin (toDouble (if s.is_src_remote then bytecount else 0))
  let written_bytes : Real64 := .fin (toDouble (if s.is_dst_remote then bytecount else 0))
  let speed : Real64 := fdiv 53 (fdiv 24 (.fin (toFloat bytecount)) (.fin abs_time)) (.fin 1000)
  let elapsed_time : Real64 := .fin abs_time
  let percent : Real64 := percentage
  [total_size, moved_bytes, read_bytes, written_bytes, speed, elapsed_time, percent,
    s.src_IP, s.dst_IP]

/-- The assignments `apmon_values[i] = ...` for `i = 0 .. 8`. -/
def storeValues : List (Option Real64) → ℕ → List Real64 → List (Option Real64)
  | buf, _, [] => buf
  | buf, i, v :: vs => storeValues (buf.set i (some v)) (i + 1) vs

/-- The body of the `try` block of `PutProgressInfo` and the two exits after
it, entered with the three arrays non-null. -/
def sendReport (w : PutWorld) (bytecount size : ℤ) (percentage : Real64) (s : State)
    (params : List String) (types : List XdrType) (buf : List (Option Real64)) : Result :=
  let buf := storeValues buf 0 (reportValues s w.now bytecount size percentage)
  let s := { s with apmon_values := some buf }
  let call : Call := match s.job_id with
    | none => .sendParameters "Other_XRD_Transfers" s.host_name s.apmon_nparams params types buf
    | some id => .sendParameters "Job_XRD_Transfers" (some id) s.apmon_nparams params types buf
  ⟨if w.sendThrows then 1 else 0, s, [call]⟩

/-- The member function `XrdCpapMon::PutProgressInfo`. -/
def PutProgressInfo (w : PutWorld) (bytecount size : ℤ) (percentage : Real64) (force : Bool)
    (s : State) : Result :=
  match s.apmon, s.apmon_params, s.apmon_values, s.apmon_types with
  | some _, some params, some buf, some types =>
    if !force then
      if sinceLastSend w.now s.last_send_time < MIN_SEND_INTERVAL then ⟨0, s, []⟩
      else sendReport w bytecount size percentage { s with last_send_time := w.now }
        params types buf
    else sendReport w bytecount size percentage s params types buf
  | _, _, _, _ => ⟨1, s, []⟩

/-! ## Notions used in the statements -/

/-- The transport and the three arrays are all present: the guard on line 249
lets the call through. -/
def Ready (s : State) : Prop :=
  s.apmon.isSome ∧ s.apmon_params.isSome ∧ s.apmon_values.isSome ∧ s.apmon_types.isSome

instance : DecidablePred Ready := fun s => by unfold Ready; infer_instance

/-- The real time from `last` to `now` in seconds as the specification means
it, an exact rational: `(now.sec - last.sec) + (now.usec - last.usec) / 1000000`
with a true division. -/
def elapsedSeconds (now last : timeval) : ℚ :=
  ((now.tv_sec - last.tv_sec : ℤ) : ℚ) + ((now.tv_usec - last.tv_usec : ℤ) : ℚ) / 1000000

/-- A `timeval` as `gettimeofday` returns it: microseconds within one second,
seconds non-negative and far below the 64-bit limit. -/
def timeval.Normal (t : timeval) : Prop :=
  (0 ≤ t.tv_usec ∧ t.tv_usec < 1000000) ∧ (0 ≤ t.tv_sec ∧ t.tv_sec < 4611686018427387904)

/-- The arguments of one `PutProgressInfo` call together with the answers of
the outside world during it. -/
structure PutCall where
  world : PutWorld
  bytecount : ℤ
  size : ℤ
  percentage : Real64
  force : Bool

/-- The state after a sequence of `PutProgressInfo` calls. -/
def runPuts (s : State) : List PutCall → State
  | [] => s
  | c :: cs =>
    runPuts (PutProgressInfo c.world c.bytecount c.size c.percentage c.force s).state cs

/-- The states an object can be in: constructed, then any sequence of `Init`,
`PutProgressInfo` and `DeInit` calls. -/
inductive Reachable : State → Prop
  | constructed (h : String) (t1 t2 : timeval) : Reachable (ctor h t1 t2)
  | afterInit (w : InitWorld) (src dest : String) (debug : ℤ) {s : State} :
      Reachable s → Reachable (Init w src dest debug s).state
  | afterPut (w : PutWorld) (bytecount size : ℤ) (percentage : Real64) (force : Bool)
      {s : State} : Reachable s → Reachable (PutProgressInfo w bytecount size percentage force s).state
  | afterDeInit {s : State} : Reachable s → Reachable (DeInit s).state

/-- The nine parameter names, in slot order. -/
def paramNames : List String :=
  ["total_size", "moved_bytes", "read_bytes", "written_bytes", "speed", "elapsed_time",
    "percent", "src_IP", "dst_IP"]

/-- A sample environment: monitoring configured, `HOSTNAME` set, no job id;
the resolver knows the client and `a.example` and nothing else. -/
def sampleWorld : InitWorld where
  now := ⟨1000, 0⟩
  getenv := fun k =>
    if k = "APMON_CONFIG" then some "mon.example:8884"
    else if k = "HOSTNAME" then some "client.example" else none
  newApMon := fun c => some ⟨c, true, true⟩
  gethostname := some "client"
  gethostbyname := fun h =>
    if h = "a.example" then some 16909060
    else if h = "client.example" then some 33686018 else none

/-- A freshly constructed object. -/
def freshState : State := ctor "" ⟨0, 0⟩ ⟨0, 0⟩

/-- The sample session: `Init("root://a.example/f", "/tmp/f", 0, null)` on a
fresh object in the sample environment. -/
def sampleSession : State := (Init sampleWorld "root://a.example/f" "/tmp/f" 0 freshState).state

/-- The shape of a session from a successful `Init` until `DeInit`: the
transport is present and the three arrays hold nine slots each. -/
structure Armed (s : State) : Prop where
  apmon : s.apmon.isSome
  nparams : s.apmon_nparams = 9
  params : s.apmon_params = some paramNames
  types : s.apmon_types = some (List.replicate 9 XdrType.XDR_REAL64)
  values : ∃ buf, s.apmon_values = some buf ∧ buf.length = 9

/-- The host label `Init` settles on: `HOSTNAME`, else `HOST`, else the
system name cut to 255 characters; `none` when all three are missing. -/
def hostLabel (w : InitWorld) : Option String :=
  match w.getenv "HOSTNAME" with
  | some v => some v
  | none =>
    match w.getenv "HOST" with
    | some v => some v
    | none => w.gethostname.map (fun name => name.take 255)

/-- Whether a call releases the transport handle. -/
def Call.releasesTransport : Call → Bool
  | .deleteApMon _ => true
  | _ => false

/-- Whether a call is a send to the transport. -/
def Call.isSend : Call → Bool
  | .sendParameters _ _ _ _ _ _ => true
  | _ => false

/-- The call a report makes on a session with nine slots: bucket and entity by
`job_id`, the nine names and types, and the nine values just stored. -/
def batch (s : State) (now : timeval) (bytecount size : ℤ) (percentage : Real64) : Call :=
  match s.job_id with
  | none => .sendParameters "Other_XRD_Transfers" s.host_name 9 paramNames
      (List.replicate 9 XdrType.XDR_REAL64)
      ((reportValues s now bytecount size percentage).map some)
  | some id => .sendParameters "Job_XRD_Transfers" (some id) 9 paramNames
      (List.replicate 9 XdrType.XDR_REAL64)
      ((reportValues s now bytecount size percentage).map some)

/-- A second sample environment: as the first, with `ALIEN_PROC_ID` set. -/
def jobWorld : InitWorld :=
  { sampleWorld with
    getenv := fun k => if k = "ALIEN_PROC_ID" then some "4711" else sampleWorld.getenv k }

/-- A third sample environment: as the first, but the resolver knows the
client only. -/
def deafWorld : InitWorld :=
  { sampleWorld with
    gethostbyname := fun h => if h = "client.example" then some 33686018 else none }

/-- A fourth sample environment: as the first, with `HOSTNAME` set to the
empty string and a failing `gethostname`. -/
def namelessWorld : InitWorld :=
  { sampleWorld with
    getenv := fun k =>
      if k = "APMON_CONFIG" then some "mon.example:8884"
      else if k = "HOSTNAME" then some "" else none
    gethostname := none }

/-- The value of the local variable `local_IP` of `Init` for host label `hn`. -/
def localIP (w : InitWorld) (hn : String) : Real64 :=
  match w.gethostbyname hn with
  | some a => addrToDouble a
  | none => .fin 0

/-! ## Rounding -/

theorem floor_le_roundEven (q : ℚ) : ⌊q⌋ ≤ roundEven q := by
  unfold roundEven
  simp only
  split_ifs <;> omega

theorem roundEven_le_ceil (q : ℚ) : roundEven q ≤ ⌈q⌉ := by
  unfold roundEven
  simp only
  have hfc : ⌊q⌋ ≤ ⌈q⌉ := Int.floor_le_ceil q
  by_cases hq : q = (⌊q⌋ : ℚ)
  · have h0 : q - (⌊q⌋ : ℚ) < 1 / 2 := by rw [← hq]; norm_num
    rw [if_pos h0]; exact hfc
  · have hlt : ⌊q⌋ < ⌈q⌉ := by
      have h1 : (⌊q⌋ : ℚ) < q := lt_of_le_of_ne (Int.floor_le q) (Ne.symm hq)
      exact Int.lt_ceil.mpr h1
    split_ifs <;> omega

theorem roundEven_intCast (z : ℤ) : roundEven (z : ℚ) = z := by
  unfold roundEven
  simp

theorem rnd_intCast_of_abs_lt (p : ℕ) (n : ℤ) (h : |n| < 2 ^ p) : rnd p (n : ℚ) = n := by
  unfold rnd
  by_cases h0 : (n : ℚ) = 0
  · simp [h0]
  rw [if_neg h0]
  simp only
  have hn0 : n ≠ 0 := by exact_mod_cast h0
  have hpos : (0 : ℚ) < |(n : ℚ)| := abs_pos.mpr h0
  set e : ℤ := Int.log 2 |(n : ℚ)| with he
  have hle : (2 : ℚ) ^ e ≤ |(n : ℚ)| := by
    have := Int.zpow_log_le_self (b := 2) (r := |(n : ℚ)|) (by norm_num) hpos
    simpa using this
  have hnlt : |(n : ℚ)| < (2 : ℚ) ^ (p : ℤ) := by
    have : ((|n| : ℤ) : ℚ) < ((2 ^ p : ℤ) : ℚ) := by exact_mod_cast h
    simpa using this
  have hep : e < p := by
    have h1 : (2 : ℚ) ^ e < (2 : ℚ) ^ (p : ℤ) := lt_of_le_of_lt hle hnlt
    exact (zpow_lt_zpow_iff_right₀ (by norm_num : (1 : ℚ) < 2)).mp h1
  obtain ⟨k, hk⟩ : ∃ k : ℕ, (k : ℤ) = (p : ℤ) - 1 - e := ⟨((p : ℤ) - 1 - e).toNat, by omega⟩
  have hulp : (2 : ℚ) ^ (e - ((p : ℤ) - 1)) = ((2 : ℚ) ^ k)⁻¹ := by
    have : e - ((p : ℤ) - 1) = -(k : ℤ) := by omega
    rw [this, zpow_neg, zpow_natCast]
  rw [hulp]
  have h2 : (2 : ℚ) ^ k ≠ 0 := by positivity
  have hq : (n : ℚ) / ((2 : ℚ) ^ k)⁻¹ = ((n * 2 ^ k : ℤ) : ℚ) := by
    push_cast; field_simp
  rw [hq, roundEven_intCast]
  push_cast
  field_simp

theorem rnd_nonpos_of_neg (p : ℕ) (q : ℚ) (h : q < 0) : rnd p q ≤ 0 := by
  unfold rnd
  rw [if_neg (ne_of_lt h)]
  simp only
  have hu : (0 : ℚ) < (2 : ℚ) ^ (Int.log 2 |q| - ((p : ℤ) - 1)) := by positivity
  have hm : q / (2 : ℚ) ^ (Int.log 2 |q| - ((p : ℤ) - 1)) ≤ ((0 : ℤ) : ℚ) := by
    simpa using (div_neg_of_neg_of_pos h hu).le
  have hr : roundEven (q / (2 : ℚ) ^ (Int.log 2 |q| - ((p : ℤ) - 1))) ≤ 0 :=
    le_trans (roundEven_le_ceil _) (Int.ceil_le.mpr hm)
  have hr' : ((roundEven (q / (2 : ℚ) ^ (Int.log 2 |q| - ((p : ℤ) - 1))) : ℤ) : ℚ) ≤ 0 := by
    exact_mod_cast hr
  exact mul_nonpos_of_nonpos_of_nonneg hr' hu.le

theorem zpow_log_le_rnd (p : ℕ) (hp : 1 ≤ p) (q : ℚ) (h : 0 < q) :
    (2 : ℚ) ^ Int.log 2 q ≤ rnd p q := by
  unfold rnd
  rw [if_neg (ne_of_gt h)]
  simp only
  rw [abs_of_pos h]
  set e : ℤ := Int.log 2 q with he
  have hu : (0 : ℚ) < (2 : ℚ) ^ (e - ((p : ℤ) - 1)) := by positivity
  have hle : (2 : ℚ) ^ e ≤ q := by
    have := Int.zpow_log_le_self (b := 2) (r := q) (by norm_num) h
    simpa using this
  obtain ⟨k, hk⟩ : ∃ k : ℕ, (k : ℤ) = (p : ℤ) - 1 := ⟨p - 1, by omega⟩
  have hsplit : (2 : ℚ) ^ e = ((2 ^ k : ℤ) : ℚ) * (2 : ℚ) ^ (e - ((p : ℤ) - 1)) := by
    push_cast
    rw [← zpow_natCast, ← zpow_add₀ (by norm_num : (2 : ℚ) ≠ 0)]
    congr 1; omega
  have hm : ((2 ^ k : ℤ) : ℚ) ≤ q / (2 : ℚ) ^ (e - ((p : ℤ) - 1)) := by
    rw [le_div_iff₀ hu, ← hsplit]; exact hle
  have hr : (2 ^ k : ℤ) ≤ roundEven (q / (2 : ℚ) ^ (e - ((p : ℤ) - 1))) :=
    le_trans (Int.le_floor.mpr hm) (floor_le_roundEven _)
  have hr' : ((2 ^ k : ℤ) : ℚ) ≤ ((roundEven (q / (2 : ℚ) ^ (e - ((p : ℤ) - 1))) : ℤ) : ℚ) := by
    exact_mod_cast hr
  rw [hsplit]
  exact mul_le_mul_of_nonneg_right hr' hu.le

theorem toFloat_lt_ten_iff (n : ℤ) : toFloat n < 10 ↔ n < 10 := by
  unfold toFloat
  by_cases hs : |n| < 2 ^ 24
  · rw [rnd_intCast_of_abs_lt 24 n hs]
    exact_mod_cast Iff.rfl
  · rw [not_lt] at hs
    rcases le_or_lt 0 n with hn | hn
    · rw [abs_of_nonneg hn] at hs
      have hq : (0 : ℚ) < (n : ℚ) := by
        have : (0 : ℤ) < n := by omega
        exact_mod_cast this
      have h24 : (2 : ℚ) ^ (24 : ℤ) ≤ (n : ℚ) := by
        have : ((2 ^ 24 : ℤ) : ℚ) ≤ (n : ℚ) := by exact_mod_cast hs
        norm_num at this ⊢
        exact this
      have hlog : (24 : ℤ) ≤ Int.log 2 (n : ℚ) := by
        exact (Int.zpow_le_iff_le_log (b := 2) (x := 24) (r := (n : ℚ)) (by norm_num) hq).mp
          (by exact_mod_cast h24)
      have h1 : (2 : ℚ) ^ (24 : ℤ) ≤ (2 : ℚ) ^ Int.log 2 (n : ℚ) :=
        zpow_le_zpow_right₀ (by norm_num) hlog
      have h2 := zpow_log_le_rnd 24 (by norm_num) (n : ℚ) hq
      have h3 : (10 : ℚ) ≤ (2 : ℚ) ^ (24 : ℤ) := by norm_num
      constructor
      · intro hlt; exfalso; linarith
      · intro hlt; exfalso; omega
    · have hq : (n : ℚ) < 0 := by exact_mod_cast hn
      have h2 := rnd_nonpos_of_neg 24 (n : ℚ) hq
      constructor
      · intro _; omega
      · intro _; linarith

/-! ## The rate limiter -/

theorem tdiv_usec_eq_zero (a b : ℤ) (ha : 0 ≤ a ∧ a < 1000000) (hb : 0 ≤ b ∧ b < 1000000) :
    (a - b).tdiv 1000000 = 0 := by
  rcases le_or_lt b a with h | h
  · exact Int.tdiv_eq_zero_of_lt (by omega) (by omega)
  · have : a - b = -(b - a) := by ring
    rw [this, Int.neg_tdiv, Int.tdiv_eq_zero_of_lt (by omega) (by omega)]
    rfl

theorem wrap64_of_range (x : ℤ) (h1 : -9223372036854775808 ≤ x)
    (h2 : x < 9223372036854775808) : wrap64 x = x := by
  unfold wrap64
  omega

theorem wholeSeconds_of_normal (now last : timeval) (hn : now.Normal) (hl : last.Normal) :
    wholeSeconds now last = now.tv_sec - last.tv_sec := by
  obtain ⟨hnu, hns⟩ := hn
  obtain ⟨hlu, hls⟩ := hl
  unfold wholeSeconds
  rw [wrap64_of_range (now.tv_usec - last.tv_usec) (by omega) (by omega),
    tdiv_usec_eq_zero _ _ hnu hlu, add_zero,
    wrap64_of_range (now.tv_sec - last.tv_sec) (by omega) (by omega),
    wrap64_of_range (now.tv_sec - last.tv_sec) (by omega) (by omega)]

theorem sinceLastSend_lt_iff (now last : timeval) :
    sinceLastSend now last < MIN_SEND_INTERVAL ↔ wholeSeconds now last < 10 := by
  unfold sinceLastSend MIN_SEND_INTERVAL
  exact toFloat_lt_ten_iff _

/-! ## `PutProgressInfo`, path by path -/

theorem put_not_ready (w : PutWorld) (b sz : ℤ) (pc : Real64) (f : Bool) (s : State)
    (h : ¬ Ready s) : PutProgressInfo w b sz pc f s = ⟨1, s, []⟩ := by
  unfold PutProgressInfo
  unfold Ready at h
  split
  · rename_i h1 h2 h3 h4
    simp [h1, h2, h3, h4] at h
  · rfl

theorem put_forced (w : PutWorld) (b sz : ℤ) (pc : Real64) (s : State) (a : ApMon)
    (params : List String) (buf : List (Option Real64)) (types : List XdrType)
    (h1 : s.apmon = some a) (h2 : s.apmon_params = some params)
    (h3 : s.apmon_values = some buf) (h4 : s.apmon_types = some types) :
    PutProgressInfo w b sz pc true s = sendReport w b sz pc s params types buf := by
  unfold PutProgressInfo
  simp [h1, h2, h3, h4]

theorem put_suppressed (w : PutWorld) (b sz : ℤ) (pc : Real64) (s : State)
    (h : Ready s) (hlt : wholeSeconds w.now s.last_send_time < 10) :
    PutProgressInfo w b sz pc false s = ⟨0, s, []⟩ := by
  obtain ⟨h1, h2, h3, h4⟩ := h
  obtain ⟨a, h1⟩ := Option.isSome_iff_exists.mp h1
  obtain ⟨params, h2⟩ := Option.isSome_iff_exists.mp h2
  obtain ⟨buf, h3⟩ := Option.isSome_iff_exists.mp h3
  obtain ⟨types, h4⟩ := Option.isSome_iff_exists.mp h4
  unfold PutProgressInfo
  simp [h1, h2, h3, h4, sinceLastSend_lt_iff, hlt]

theorem put_unforced_sent (w : PutWorld) (b sz : ℤ) (pc : Real64) (s : State) (a : ApMon)
    (params : List String) (buf : List (Option Real64)) (types : List XdrType)
    (h1 : s.apmon = some a) (h2 : s.apmon_params = some params)
    (h3 : s.apmon_values = some buf) (h4 : s.apmon_types = some types)
    (hge : 10 ≤ wholeSeconds w.now s.last_send_time) :
    PutProgressInfo w b sz pc false s
      = sendReport w b sz pc { s with last_send_time := w.now } params types buf := by
  unfold PutProgressInfo
  have : ¬ wholeSeconds w.now s.last_send_time < 10 := by omega
  simp [h1, h2, h3, h4, sinceLastSend_lt_iff, this]

/-! ## The report -/

theorem storeValues_nine (buf : List (Option Real64)) (vs : List Real64)
    (hb : buf.length = 9) (hv : vs.length = 9) : storeValues buf 0 vs = vs.map some := by
  match buf, hb with
  | [_, _, _, _, _, _, _, _, _], _ =>
    match vs, hv with
    | [_, _, _, _, _, _, _, _, _], _ => rfl

theorem reportValues_length (s : State) (now : timeval) (b sz : ℤ) (pc : Real64) :
    (reportValues s now b sz pc).length = 9 := rfl

theorem storeValues_length (vs : List Real64) :
    ∀ (buf : List (Option Real64)) (i : ℕ), (storeValues buf i vs).length = buf.length := by
  induction vs with
  | nil => intro buf i; rfl
  | cons v vs ih => intro buf i; simp [storeValues, ih]

theorem Armed.to_ready {s : State} (h : Armed s) : Ready s := by
  obtain ⟨buf, hb, _⟩ := h.values
  exact ⟨h.apmon, by simp [h.params], by simp [hb], by simp [h.types]⟩

theorem sendReport_state (w : PutWorld) (b sz : ℤ) (pc : Real64) (s : State)
    (params : List String) (types : List XdrType) (buf : List (Option Real64)) :
    (sendReport w b sz pc s params types buf).state
      = { s with apmon_values := some (storeValues buf 0 (reportValues s w.now b sz pc)) } := by
  unfold sendReport; rfl

theorem sendReport_trace (w : PutWorld) (b sz : ℤ) (pc : Real64) (s : State)
    (params : List String) (types : List XdrType) (buf : List (Option Real64)) :
    (sendReport w b sz pc s params types buf).trace
      = [match s.job_id with
         | none => Call.sendParameters "Other_XRD_Transfers" s.host_name s.apmon_nparams
             params types (storeValues buf 0 (reportValues s w.now b sz pc))
         | some id => Call.sendParameters "Job_XRD_Transfers" (some id) s.apmon_nparams
             params types (storeValues buf 0 (reportValues s w.now b sz pc))] := by
  unfold sendReport; rfl

/-- Every path of `PutProgressInfo` changes at most `last_send_time` and the
contents of the value slots. -/
theorem put_state (w : PutWorld) (b sz : ℤ) (pc : Real64) (f : Bool) (s : State) :
    ∃ t v, (PutProgressInfo w b sz pc f s).state
        = { s with last_send_time := t, apmon_values := v }
      ∧ (s.apmon_values.isSome ↔ v.isSome)
      ∧ (∀ buf, s.apmon_values = some buf → ∃ buf2, v = some buf2 ∧ buf2.length = buf.length) := by
  unfold PutProgressInfo
  split
  · rename_i a params buf types h1 h2 h3 h4
    by_cases hf : f = true
    · subst hf
      refine ⟨s.last_send_time, some (storeValues buf 0 (reportValues s w.now b sz pc)), ?_, ?_, ?_⟩
      · simp [sendReport]
      · simp [h3]
      · intro buf1 hb; rw [h3] at hb; cases hb
        exact ⟨_, rfl, storeValues_length _ _ _⟩
    · have hf2 : f = false := by simpa using hf
      subst hf2
      by_cases hlt : sinceLastSend w.now s.last_send_time < MIN_SEND_INTERVAL
      · refine ⟨s.last_send_time, s.apmon_values, ?_, Iff.rfl, ?_⟩
        · simp [hlt]
        · intro buf1 hb; exact ⟨buf1, hb, rfl⟩
      · refine ⟨w.now, some (storeValues buf 0
          (reportValues { s with last_send_time := w.now } w.now b sz pc)), ?_, ?_, ?_⟩
        · simp [hlt, sendReport]
        · simp [h3]
        · intro buf1 hb; rw [h3] at hb; cases hb
          exact ⟨_, rfl, storeValues_length _ _ _⟩
  · exact ⟨s.last_send_time, s.apmon_values, rfl, Iff.rfl, fun buf hb => ⟨buf, hb, rfl⟩⟩

theorem Armed.after_put {s : State} (h : Armed s) (w : PutWorld) (b sz : ℤ) (pc : Real64) (f : Bool) :
    Armed (PutProgressInfo w b sz pc f s).state := by
  obtain ⟨t, v, hs, _, hv⟩ := put_state w b sz pc f s
  obtain ⟨buf, hb, hl⟩ := h.values
  obtain ⟨buf2, hb2, hl2⟩ := hv buf hb
  rw [hs]
  exact ⟨h.apmon, h.nparams, h.params, h.types, ⟨buf2, hb2, by rw [hl2, hl]⟩⟩

theorem Armed.after_runPuts {s : State} (h : Armed s) (cs : List PutCall) : Armed (runPuts s cs) := by
  induction cs generalizing s with
  | nil => exact h
  | cons c cs ih => exact ih (h.after_put c.world c.bytecount c.size c.percentage c.force)

/-! ## `Init`, path by path -/

/-- The state in which `Init` reaches line 121, given the configuration and
the constructed transport. -/
theorem Init_of_transport (w : InitWorld) (src dest : String) (debug : ℤ) (s : State)
    (cfg : String) (a : ApMon) (hc : w.getenv "APMON_CONFIG" = some cfg)
    (hl : cfg.length ≠ 0) (hn : w.newApMon cfg = some a) :
    Init w src dest debug s
      = initHost w src dest
          { s with abs_start_time := w.now,
                   apmon := some { a with confRecheck := false, jobMonitoring := false } }
          [Call.setLogLevel (if debug = 0 then "WARNING" else "DEBUG"), Call.newApMon cfg] := by
  unfold Init
  simp [hc, hl, hn]

/-- When `Init` does not return 1 the configuration was present and non-empty
and the transport was constructed. -/
theorem Init_transport_of_status (w : InitWorld) (src dest : String) (debug : ℤ) (s : State)
    (h : (Init w src dest debug s).status ≠ 1) :
    ∃ cfg a, w.getenv "APMON_CONFIG" = some cfg ∧ cfg.length ≠ 0 ∧ w.newApMon cfg = some a := by
  unfold Init at h
  cases hc : w.getenv "APMON_CONFIG" with
  | none => simp [hc] at h
  | some cfg =>
    by_cases hl : cfg.length = 0
    · simp [hc, hl] at h
    · cases hn : w.newApMon cfg with
      | none => simp [hc, hl, hn] at h
      | some a => exact ⟨cfg, a, rfl, hl, hn⟩

theorem initHost_of_label (w : InitWorld) (src dest : String) (s : State) (tr : List Call)
    (hn : String) (h : hostLabel w = some hn) :
    ∃ s1 tr1, initHost w src dest s tr = initAddresses w src dest hn s1 tr1
      ∧ s1.host_name = some hn ∧ s1.apmon = s.apmon ∧ s1.job_id = s.job_id
      ∧ s1.is_src_remote = isRemote src ∧ s1.is_dst_remote = isRemote dest
      ∧ s1.src_IP = .fin 0 ∧ s1.dst_IP = .fin 0
      ∧ (tr1 = tr ∨ tr1 = tr ++ [Call.gethostname]) := by
  unfold hostLabel at h
  cases h1 : w.getenv "HOSTNAME" with
  | some v =>
    simp [h1] at h; subst h
    refine ⟨{ s with is_src_remote := isRemote src, is_dst_remote := isRemote dest,
                     src_IP := .fin 0, dst_IP := .fin 0, host_name := some v }, tr,
      ?_, rfl, rfl, rfl, rfl, rfl, rfl, rfl, Or.inl rfl⟩
    simp [initHost, h1]
  | none =>
    cases h2 : w.getenv "HOST" with
    | some v =>
      simp [h1, h2] at h; subst h
      refine ⟨{ s with is_src_remote := isRemote src, is_dst_remote := isRemote dest,
                       src_IP := .fin 0, dst_IP := .fin 0, host_name := some v }, tr,
        ?_, rfl, rfl, rfl, rfl, rfl, rfl, rfl, Or.inl rfl⟩
      simp [initHost, h1, h2]
    | none =>
      cases h3 : w.gethostname with
      | none => simp [h1, h2, h3] at h
      | some name =>
        simp [h1, h2, h3] at h; subst h
        refine ⟨{ s with is_src_remote := isRemote src, is_dst_remote := isRemote dest,
                         src_IP := .fin 0, dst_IP := .fin 0, statichostname := name.take 255,
                         host_name := some (name.take 255) }, tr ++ [Call.gethostname],
          ?_, rfl, rfl, rfl, rfl, rfl, rfl, rfl, Or.inr rfl⟩
        simp [initHost, h1, h2, h3]

theorem initHost_no_label (w : InitWorld) (src dest : String) (s : State) (tr : List Call)
    (h : hostLabel w = none) :
    (initHost w src dest s tr).status = 2 ∧ (initHost w src dest s tr).state.host_name = none := by
  unfold hostLabel at h
  unfold initHost
  cases h1 : w.getenv "HOSTNAME" with
  | some v => simp [h1] at h
  | none =>
    cases h2 : w.getenv "HOST" with
    | some v => simp [h1, h2] at h
    | none =>
      cases h3 : w.gethostname with
      | some name => simp [h1, h2, h3] at h
      | none => simp [h1, h2, h3]

theorem initAddresses_status (w : InitWorld) (src dest hn : String) (s : State)
    (tr : List Call) : (initAddresses w src dest hn s tr).status = 0 := rfl

theorem initHost_params_of_no_label (w : InitWorld) (src dest : String) (s : State)
    (tr : List Call) (h : hostLabel w = none) :
    (initHost w src dest s tr).state.apmon_params = s.apmon_params := by
  unfold hostLabel at h
  unfold initHost
  cases h1 : w.getenv "HOSTNAME" with
  | some v => simp [h1] at h
  | none =>
    cases h2 : w.getenv "HOST" with
    | some v => simp [h1, h2] at h
    | none =>
      cases h3 : w.gethostname with
      | some name => simp [h1, h2, h3] at h
      | none => simp [h1, h2, h3]

/-- The three ways `Init` can end: monitoring unavailable (1), no host label
(2), or all the way through (0). -/
theorem Init_cases (w : InitWorld) (src dest : String) (debug : ℤ) (s : State) :
    ((Init w src dest debug s).status = 1
        ∧ (Init w src dest debug s).state.apmon_params = s.apmon_params
        ∧ ((Init w src dest debug s).state.apmon = s.apmon
            ∨ (Init w src dest debug s).state.apmon = none))
    ∨ ((Init w src dest debug s).status = 2
        ∧ (Init w src dest debug s).state.apmon_params = s.apmon_params
        ∧ (Init w src dest debug s).state.host_name = none
        ∧ hostLabel w = none
        ∧ ∃ cfg a, w.getenv "APMON_CONFIG" = some cfg ∧ cfg.length ≠ 0
            ∧ w.newApMon cfg = some a)
    ∨ (∃ cfg a hn s1 tr1, w.getenv "APMON_CONFIG" = some cfg ∧ cfg.length ≠ 0
        ∧ w.newApMon cfg = some a ∧ hostLabel w = some hn
        ∧ Init w src dest debug s = initAddresses w src dest hn s1 tr1
        ∧ s1.host_name = some hn
        ∧ s1.apmon = some { a with confRecheck := false, jobMonitoring := false }
        ∧ s1.job_id = s.job_id
        ∧ s1.is_src_remote = isRemote src ∧ s1.is_dst_remote = isRemote dest
        ∧ s1.src_IP = .fin 0 ∧ s1.dst_IP = .fin 0) := by
  cases hc : w.getenv "APMON_CONFIG" with
  | none => left; simp [Init, hc]
  | some cfg =>
    by_cases hl : cfg.length = 0
    · left; simp [Init, hc, hl]
    · cases hn : w.newApMon cfg with
      | none => left; simp [Init, hc, hl, hn]
      | some a =>
        right
        rw [Init_of_transport w src dest debug s cfg a hc hl hn]
        cases hlab : hostLabel w with
        | none =>
          left
          obtain ⟨h1, h2⟩ := initHost_no_label w src dest
            { s with abs_start_time := w.now,
                     apmon := some { a with confRecheck := false, jobMonitoring := false } }
            [Call.setLogLevel (if debug = 0 then "WARNING" else "DEBUG"), Call.newApMon cfg] hlab
          exact ⟨h1, initHost_params_of_no_label w src dest _ _ hlab, h2, rfl,
            cfg, a, rfl, hl, hn⟩
        | some hn1 =>
          right
          obtain ⟨s1, tr1, he, h1, h2, h3, h4, h5, h6, h7, -⟩ := initHost_of_label w src dest
            { s with abs_start_time := w.now,
                     apmon := some { a with confRecheck := false, jobMonitoring := false } }
            [Call.setLogLevel (if debug = 0 then "WARNING" else "DEBUG"), Call.newApMon cfg]
            hn1 hlab
          exact ⟨cfg, a, hn1, s1, tr1, rfl, hl, hn, rfl, he, h1, h2, h3, h4, h5, h6, h7⟩

theorem Ready_iff (s : State) :
    Ready s ↔ ¬ (s.apmon = none ∨ s.apmon_params = none ∨ s.apmon_values = none
      ∨ s.apmon_types = none) := by
  unfold Ready
  cases s.apmon <;> cases s.apmon_params <;> cases s.apmon_values <;> cases s.apmon_types <;> simp

theorem not_ready_ctor (h : String) (t1 t2 : timeval) : ¬ Ready (ctor h t1 t2) := by
  simp [Ready, ctor]

theorem not_ready_DeInit (s : State) : ¬ Ready (DeInit s).state := by
  simp [Ready, DeInit]

theorem not_ready_of_Init_failed (w : InitWorld) (src dest : String) (debug : ℤ)
    (h : String) (t1 t2 : timeval)
    (hs : (Init w src dest debug (ctor h t1 t2)).status ≠ 0) :
    ¬ Ready (Init w src dest debug (ctor h t1 t2)).state := by
  intro hr
  have hp : (Init w src dest debug (ctor h t1 t2)).state.apmon_params.isSome := hr.2.1
  rcases Init_cases w src dest debug (ctor h t1 t2) with ⟨-, h1, -⟩ | ⟨-, h1, -⟩ | h3
  · rw [h1] at hp; simp [ctor] at hp
  · rw [h1] at hp; simp [ctor] at hp
  · obtain ⟨cfg, a, hn, s1, tr1, -, -, -, -, he, -⟩ := h3
    rw [he] at hs
    exact hs rfl

/-! ## Teardown -/

theorem DeInit_state (s : State) :
    (DeInit s).state
      = { s with apmon := none, apmon_params := none, apmon_values := none,
                 apmon_types := none } := rfl

theorem DeInit_trace_of_absent (s : State) (h1 : s.apmon = none) (h2 : s.apmon_params = none)
    (h3 : s.apmon_values = none) (h4 : s.apmon_types = none) : (DeInit s).trace = [] := by
  simp [DeInit, h1, h2, h3, h4]

theorem initAddresses_initdone (w : InitWorld) (src dest hn : String) (s : State)
    (tr : List Call) : (initAddresses w src dest hn s tr).state.initdone = s.initdone := by
  simp only [initAddresses, resolveSrc, resolveDst, resolveJobId, allocParams]
  repeat' split
  all_goals rfl

theorem initHost_initdone (w : InitWorld) (src dest : String) (s : State) (tr : List Call) :
    (initHost w src dest s tr).state.initdone = s.initdone := by
  unfold initHost
  simp only
  repeat' split
  all_goals first | rfl | simp [initAddresses_initdone]

theorem Init_initdone (w : InitWorld) (src dest : String) (debug : ℤ) (s : State) :
    (Init w src dest debug s).state.initdone = s.initdone := by
  unfold Init
  simp only
  repeat' split
  all_goals first | rfl | simp [initHost_initdone]

/-- The flag `initdone` is written by the constructor only. -/
theorem Reachable.initdone_false {s : State} (h : Reachable s) : s.initdone = false := by
  induction h with
  | constructed h t1 t2 => rfl
  | afterInit w src dest debug _ ih => rw [Init_initdone]; exact ih
  | afterPut w b sz pc f _ ih =>
    obtain ⟨t, v, hs, -⟩ := put_state w b sz pc f _
    rw [hs]; exact ih
  | afterDeInit _ ih => exact ih

/-- In every reachable state the destructor skips `DeInit`. -/
theorem Reachable.dtor_nil {s : State} (h : Reachable s) : dtor s = [] := by
  simp [dtor, h.initdone_false]

/-! ## The claims -/

/-- The statements of `DeInit` are idempotent on the fields: run a second
time they change nothing and release nothing, and over the two runs the
transport is released once if it was present and not at all otherwise. -/
theorem DeInit_statements_idempotent (s : State) :
    (DeInit (DeInit s).state).state = (DeInit s).state
    ∧ (DeInit s).state.apmon = none ∧ (DeInit s).state.apmon_params = none
    ∧ (DeInit s).state.apmon_values = none ∧ (DeInit s).state.apmon_types = none
    ∧ (DeInit (DeInit s).state).trace = []
    ∧ ((DeInit s).trace ++ (DeInit (DeInit s).state).trace).countP Call.releasesTransport
        = (if s.apmon.isSome then 1 else 0)
    ∧ ((DeInit s).trace ++ (DeInit (DeInit s).state).trace).countP Call.releasesTransport
        ≤ 1 := by
  have hcount : ((DeInit s).trace ++ (DeInit (DeInit s).state).trace).countP
      Call.releasesTransport = (if s.apmon.isSome then 1 else 0) := by
    rw [DeInit_trace_of_absent (DeInit s).state rfl rfl rfl rfl, List.append_nil]
    unfold DeInit
    cases s.apmon <;> cases s.apmon_params <;> cases s.apmon_values <;> cases s.apmon_types <;>
      simp [Call.releasesTransport, List.countP_cons]
  refine ⟨rfl, rfl, rfl, rfl, rfl, DeInit_trace_of_absent _ rfl rfl rfl rfl, hcount, ?_⟩
  rw [hcount]; split <;> omega

/-- C5 (as the code has it). When the transport or one of the three arrays is
absent, `PutProgressInfo` returns 1, calls nothing and leaves the state as it
was, whatever its arguments.  A constructed object, an object whose `Init`
returned non-zero, and an object after `DeInit` are all in that situation. -/
theorem C5_put_without_transport (s : State) (w : PutWorld) (bytecount size : ℤ)
    (percentage : Real64) (force : Bool)
    (h : s.apmon = none ∨ s.apmon_params = none ∨ s.apmon_values = none
      ∨ s.apmon_types = none) :
    PutProgressInfo w bytecount size percentage force s = ⟨1, s, []⟩
    ∧ (∀ (hn : String) (t1 t2 : timeval),
        PutProgressInfo w bytecount size percentage force (ctor hn t1 t2)
          = ⟨1, ctor hn t1 t2, []⟩)
    ∧ (∀ (iw : InitWorld) (src dest : String) (debug : ℤ) (hn : String) (t1 t2 : timeval),
        (Init iw src dest debug (ctor hn t1 t2)).status ≠ 0 →
        PutProgressInfo w bytecount size percentage force
            (Init iw src dest debug (ctor hn t1 t2)).state
          = ⟨1, (Init iw src dest debug (ctor hn t1 t2)).state, []⟩)
    ∧ (∀ t : State,
        PutProgressInfo w bytecount size percentage force (DeInit t).state
          = ⟨1, (DeInit t).state, []⟩) := by
  refine ⟨put_not_ready _ _ _ _ _ _ ((Ready_iff s).not_left.mpr h), ?_, ?_, ?_⟩
  · intro hn t1 t2
    exact put_not_ready _ _ _ _ _ _ (not_ready_ctor hn t1 t2)
  · intro iw src dest debug hn t1 t2 hs
    exact put_not_ready _ _ _ _ _ _ (not_ready_of_Init_failed iw src dest debug hn t1 t2 hs)
  · intro t
    exact put_not_ready _ _ _ _ _ _ (not_ready_DeInit t)

/-- C5, the claim as stated fails: on a freshly constructed object (no
transport) `PutProgressInfo` returns 1, not 0. -/
theorem C5_status_is_one :
    freshState.apmon = none
    ∧ (PutProgressInfo ⟨⟨1000, 0⟩, false⟩ 0 0 (.fin 0) false freshState).status = 1
    ∧ (PutProgressInfo ⟨⟨1000, 0⟩, false⟩ 0 0 (.fin 0) false freshState).status ≠ 0 := by
  decide

/-- C5, an instance: after `DeInit` of the sample session a forced report
returns 1 and calls nothing. -/
theorem C5_put_without_transport_witness :
    ((DeInit sampleSession).state.apmon = none
      ∨ (DeInit sampleSession).state.apmon_params = none
      ∨ (DeInit sampleSession).state.apmon_values = none
      ∨ (DeInit sampleSession).state.apmon_types = none)
    ∧ PutProgressInfo ⟨⟨1010, 0⟩, false⟩ 500000 1000000 (.fin 50) true
        (DeInit sampleSession).state
        = ⟨1, (DeInit sampleSession).state, []⟩ :=
  ⟨Or.inl rfl,
    (C5_put_without_transport (DeInit sampleSession).state ⟨⟨1010, 0⟩, false⟩ 500000 1000000
      (.fin 50) true (Or.inl rfl)).1⟩

/-! ## Reports of an armed session -/

theorem sendReport_armed (w : PutWorld) (b sz : ℤ) (pc : Real64) (s : State)
    (buf : List (Option Real64)) (h : Armed s) (hb : buf.length = 9) :
    sendReport w b sz pc s paramNames (List.replicate 9 XdrType.XDR_REAL64) buf
      = ⟨if w.sendThrows then 1 else 0,
          { s with apmon_values := some ((reportValues s w.now b sz pc).map some) },
          [batch s w.now b sz pc]⟩ := by
  unfold sendReport batch
  simp only [storeValues_nine buf _ hb (reportValues_length _ _ _ _ _), h.nparams]

theorem reportValues_last_send_time (s : State) (t now : timeval) (b sz : ℤ) (pc : Real64) :
    reportValues { s with last_send_time := t } now b sz pc = reportValues s now b sz pc := rfl

theorem batch_last_send_time (s : State) (t now : timeval) (b sz : ℤ) (pc : Real64) :
    batch { s with last_send_time := t } now b sz pc = batch s now b sz pc := rfl

theorem Armed.with_last_send_time {s : State} (h : Armed s) (t : timeval) :
    Armed { s with last_send_time := t } :=
  ⟨h.apmon, h.nparams, h.params, h.types, h.values⟩

/-- A forced report of an armed session. -/
theorem put_forced_armed (w : PutWorld) (b sz : ℤ) (pc : Real64) (s : State) (h : Armed s) :
    PutProgressInfo w b sz pc true s
      = ⟨if w.sendThrows then 1 else 0,
          { s with apmon_values := some ((reportValues s w.now b sz pc).map some) },
          [batch s w.now b sz pc]⟩ := by
  obtain ⟨a, ha⟩ := Option.isSome_iff_exists.mp h.apmon
  obtain ⟨buf, hb, hl⟩ := h.values
  rw [put_forced w b sz pc s a _ buf _ ha h.params hb h.types, sendReport_armed w b sz pc s buf h hl]

/-- An unforced report of an armed session that passes the gate. -/
theorem put_unforced_armed (w : PutWorld) (b sz : ℤ) (pc : Real64) (s : State) (h : Armed s)
    (hge : 10 ≤ wholeSeconds w.now s.last_send_time) :
    PutProgressInfo w b sz pc false s
      = ⟨if w.sendThrows then 1 else 0,
          { s with last_send_time := w.now,
                   apmon_values := some ((reportValues s w.now b sz pc).map some) },
          [batch s w.now b sz pc]⟩ := by
  obtain ⟨a, ha⟩ := Option.isSome_iff_exists.mp h.apmon
  obtain ⟨buf, hb, hl⟩ := h.values
  rw [put_unforced_sent w b sz pc s a _ buf _ ha h.params hb h.types hge,
    sendReport_armed w b sz pc _ buf (h.with_last_send_time w.now) hl]
  rfl

theorem put_forced_armed_last (w : PutWorld) (b sz : ℤ) (pc : Real64) (s : State)
    (h : Armed s) :
    (PutProgressInfo w b sz pc true s).state.last_send_time = s.last_send_time := by
  rw [put_forced_armed w b sz pc s h]

theorem put_unforced_armed_last (w : PutWorld) (b sz : ℤ) (pc : Real64) (s : State)
    (h : Armed s) (hge : 10 ≤ wholeSeconds w.now s.last_send_time) :
    (PutProgressInfo w b sz pc false s).state.last_send_time = w.now := by
  rw [put_unforced_armed w b sz pc s h hge]

theorem batch_isSend (s : State) (now : timeval) (b sz : ℤ) (pc : Real64) :
    (batch s now b sz pc).isSend = true := by
  unfold batch; cases s.job_id <;> rfl

theorem put_forced_armed_count (w : PutWorld) (b sz : ℤ) (pc : Real64) (s : State)
    (h : Armed s) :
    (PutProgressInfo w b sz pc true s).trace.countP Call.isSend = 1 := by
  rw [put_forced_armed w b sz pc s h]
  simp [List.countP_cons, batch_isSend]

theorem put_unforced_armed_count (w : PutWorld) (b sz : ℤ) (pc : Real64) (s : State)
    (h : Armed s) (hge : 10 ≤ wholeSeconds w.now s.last_send_time) :
    (PutProgressInfo w b sz pc false s).trace.countP Call.isSend = 1 := by
  rw [put_unforced_armed w b sz pc s h hge]
  simp [List.countP_cons, batch_isSend]

/-! ## The state after a successful `Init` -/

theorem initAddresses_fields (w : InitWorld) (src dest hn : String) (s : State)
    (tr : List Call) :
    (initAddresses w src dest hn s tr).state.apmon = s.apmon
    ∧ (initAddresses w src dest hn s tr).state.apmon_nparams = 9
    ∧ (initAddresses w src dest hn s tr).state.apmon_params = some paramNames
    ∧ (initAddresses w src dest hn s tr).state.apmon_types
        = some (List.replicate 9 XdrType.XDR_REAL64)
    ∧ (initAddresses w src dest hn s tr).state.apmon_values = some (List.replicate 9 none)
    ∧ (initAddresses w src dest hn s tr).state.host_name = s.host_name
    ∧ (initAddresses w src dest hn s tr).state.is_src_remote = s.is_src_remote
    ∧ (initAddresses w src dest hn s tr).state.is_dst_remote = s.is_dst_remote := by
  simp only [initAddresses, resolveSrc, resolveDst, resolveJobId, allocParams]
  refine ⟨?_, ?_, ?_, ?_, ?_, ?_, ?_, ?_⟩ <;> (repeat' split) <;> first | rfl | trivial

theorem Init_armed (w : InitWorld) (src dest : String) (debug : ℤ) (s : State)
    (h : (Init w src dest debug s).status = 0) : Armed (Init w src dest debug s).state := by
  rcases Init_cases w src dest debug s with ⟨h1, -⟩ | ⟨h2, -⟩ | h3
  · omega
  · omega
  · obtain ⟨cfg, a, hn, s1, tr1, -, -, -, -, he, -, ha, -⟩ := h3
    obtain ⟨f1, f2, f3, f4, f5, -⟩ := initAddresses_fields w src dest hn s1 tr1
    rw [he]
    exact ⟨by rw [f1, ha]; rfl, f2, f3, f4, ⟨_, f5, rfl⟩⟩

theorem sampleSession_armed : Armed sampleSession :=
  Init_armed _ _ _ _ _ (by decide)

/-- C10, what the code does instead: `Init` returns 0 on the sample session
and leaves the transport present, yet `initdone` is still false (nothing ever
sets it), so the destructor skips `DeInit` and releases nothing; a present
transport does not imply `initdone`. -/
theorem C10_destructor_skips_DeInit :
    (Init sampleWorld "root://a.example/f" "/tmp/f" 0 freshState).status = 0
    ∧ sampleSession = (Init sampleWorld "root://a.example/f" "/tmp/f" 0 freshState).state
    ∧ sampleSession.apmon.isSome = true
    ∧ sampleSession.initdone = false
    ∧ dtor sampleSession = []
    ∧ (dtor sampleSession).countP Call.releasesTransport = 0
    ∧ (DeInit sampleSession).trace.countP Call.releasesTransport = 1 := by
  refine ⟨by decide, rfl, by decide, by decide, by decide, by decide, by decide⟩

/-- The real elapsed time never falls short of the whole seconds by a full
second: with normal timestamps, 10 real seconds imply 10 whole seconds. -/
theorem wholeSeconds_ge_of_elapsed (now last : timeval) (hn : now.Normal) (hl : last.Normal)
    (h : 10 ≤ elapsedSeconds now last) : 10 ≤ wholeSeconds now last := by
  rw [wholeSeconds_of_normal now last hn hl]
  unfold elapsedSeconds at h
  obtain ⟨⟨hn0, hn1⟩, -⟩ := hn
  obtain ⟨⟨hl0, hl1⟩, -⟩ := hl
  have hu : ((now.tv_usec - last.tv_usec : ℤ) : ℚ) < 1000000 := by
    have : now.tv_usec - last.tv_usec < 1000000 := by omega
    exact_mod_cast this
  have hq : (9 : ℚ) < ((now.tv_sec - last.tv_sec : ℤ) : ℚ) := by
    have : ((now.tv_usec - last.tv_usec : ℤ) : ℚ) / 1000000 < 1 := by
      rw [div_lt_one (by norm_num)]; exact hu
    linarith
  have : (9 : ℤ) < now.tv_sec - last.tv_sec := by exact_mod_cast hq
  omega

/-- C1, what the code does instead.  The sample session, having sent an
unforced report at 1100.9 s, is called again unforced at 1110.0 s.  The real
elapsed time is 9.1 s, below 10.0, yet the call sends a batch and moves
`last_send_time`: the microsecond term is divided as an integer and
contributes nothing, so the gate compares whole seconds (10) with 10.0. -/
theorem C1_sends_before_ten_seconds :
    (PutProgressInfo ⟨⟨1100, 900000⟩, false⟩ 100 1000 (.fin 10) false sampleSession
      ).state.last_send_time = ⟨1100, 900000⟩
    ∧ elapsedSeconds ⟨1110, 0⟩ ⟨1100, 900000⟩ = 91 / 10
    ∧ elapsedSeconds ⟨1110, 0⟩ ⟨1100, 900000⟩ < 10
    ∧ wholeSeconds ⟨1110, 0⟩ ⟨1100, 900000⟩ = 10
    ∧ ((PutProgressInfo ⟨⟨1110, 0⟩, false⟩ 200 1000 (.fin 20) false
        (PutProgressInfo ⟨⟨1100, 900000⟩, false⟩ 100 1000 (.fin 10) false sampleSession).state
      ).trace.countP Call.isSend = 1)
    ∧ (PutProgressInfo ⟨⟨1110, 0⟩, false⟩ 200 1000 (.fin 20) false
        (PutProgressInfo ⟨⟨1100, 900000⟩, false⟩ 100 1000 (.fin 10) false sampleSession).state
      ).state.last_send_time = ⟨1110, 0⟩ := by
  have g1 : 10 ≤ wholeSeconds (⟨⟨1100, 900000⟩, false⟩ : PutWorld).now
      sampleSession.last_send_time := by decide
  have ha := sampleSession_armed.after_put ⟨⟨1100, 900000⟩, false⟩ 100 1000 (.fin 10) false
  have hl := put_unforced_armed_last ⟨⟨1100, 900000⟩, false⟩ 100 1000 (.fin 10)
    sampleSession sampleSession_armed g1
  have g2 : 10 ≤ wholeSeconds (⟨⟨1110, 0⟩, false⟩ : PutWorld).now
      (PutProgressInfo ⟨⟨1100, 900000⟩, false⟩ 100 1000 (.fin 10) false sampleSession
        ).state.last_send_time := by
    rw [hl]; decide
  refine ⟨hl, ?_, ?_, by decide, ?_, ?_⟩
  · norm_num [elapsedSeconds]
  · norm_num [elapsedSeconds]
  · exact put_unforced_armed_count ⟨⟨1110, 0⟩, false⟩ 200 1000 (.fin 20) _ ha g2
  · exact put_unforced_armed_last ⟨⟨1110, 0⟩, false⟩ 200 1000 (.fin 20) _ ha g2

theorem Ready.after_put_ready {s : State} (h : Ready s) (w : PutWorld) (b sz : ℤ) (pc : Real64) (f : Bool) :
    Ready (PutProgressInfo w b sz pc f s).state := by
  obtain ⟨t, v, hs, hv, -⟩ := put_state w b sz pc f s
  rw [hs]
  exact ⟨h.1, h.2.1, hv.mp h.2.2.1, h.2.2.2⟩

theorem sendReport_countP (w : PutWorld) (b sz : ℤ) (pc : Real64) (s : State)
    (params : List String) (types : List XdrType) (buf : List (Option Real64)) :
    (sendReport w b sz pc s params types buf).trace.length = 1
    ∧ (sendReport w b sz pc s params types buf).trace.countP Call.isSend = 1 := by
  rw [sendReport_trace]
  cases s.job_id <;> simp [Call.isSend]

theorem storeValues_set_comm (vs : List Real64) :
    ∀ (buf : List (Option Real64)) (i j : ℕ) (x : Option Real64), i < j →
      (storeValues buf j vs).set i x = storeValues (buf.set i x) j vs := by
  induction vs with
  | nil => intro buf i j x _; rfl
  | cons v vs ih =>
    intro buf i j x hij
    simp only [storeValues]
    rw [ih (buf.set j (some v)) i (j + 1) x (by omega),
      List.set_comm (some v) x buf (Nat.ne_of_gt hij)]

/-- Storing a second report over a first leaves what storing the second alone
leaves. -/
theorem storeValues_overwrite (vs1 : List Real64) :
    ∀ (vs2 : List Real64) (buf : List (Option Real64)) (i : ℕ), vs1.length = vs2.length →
      storeValues (storeValues buf i vs1) i vs2 = storeValues buf i vs2 := by
  induction vs1 with
  | nil =>
    intro vs2 buf i h
    cases vs2 with
    | nil => rfl
    | cons _ _ => simp at h
  | cons v1 vs1 ih =>
    intro vs2 buf i h
    cases vs2 with
    | nil => simp at h
    | cons v2 vs2 =>
      simp only [storeValues]
      rw [storeValues_set_comm vs1 _ i (i + 1) (some v2) (by omega), List.set_set,
        ih vs2 _ (i + 1) (by simpa using h)]

/-- An unforced call after a forced one does what it would have done without
the forced one. -/
theorem put_unforced_after_values (w2 : PutWorld) (b2 sz2 : ℤ) (pc2 : Real64) (s : State)
    (a : ApMon) (params : List String) (buf : List (Option Real64)) (types : List XdrType)
    (vs : List Real64) (hvs : vs.length = 9)
    (h1 : s.apmon = some a) (h2 : s.apmon_params = some params)
    (h3 : s.apmon_values = some buf) (h4 : s.apmon_types = some types) :
    (PutProgressInfo w2 b2 sz2 pc2 false
        { s with apmon_values := some (storeValues buf 0 vs) }).status
      = (PutProgressInfo w2 b2 sz2 pc2 false s).status
    ∧ (PutProgressInfo w2 b2 sz2 pc2 false
        { s with apmon_values := some (storeValues buf 0 vs) }).trace
      = (PutProgressInfo w2 b2 sz2 pc2 false s).trace
    ∧ (PutProgressInfo w2 b2 sz2 pc2 false
        { s with apmon_values := some (storeValues buf 0 vs) }).state.last_send_time
      = (PutProgressInfo w2 b2 sz2 pc2 false s).state.last_send_time := by
  rcases lt_or_le (wholeSeconds w2.now s.last_send_time) 10 with hlt | hge
  · have r1 := put_suppressed w2 b2 sz2 pc2 s
      ⟨by simp [h1], by simp [h2], by simp [h3], by simp [h4]⟩ hlt
    have r2 := put_suppressed w2 b2 sz2 pc2
      { s with apmon_values := some (storeValues buf 0 vs) }
      ⟨by simp [h1], by simp [h2], by simp, by simp [h4]⟩ hlt
    rw [r1, r2]
    exact ⟨rfl, rfl, rfl⟩
  · have r1 := put_unforced_sent w2 b2 sz2 pc2 s a params buf types h1 h2 h3 h4 hge
    have r2 := put_unforced_sent w2 b2 sz2 pc2
      { s with apmon_values := some (storeValues buf 0 vs) } a params
      (storeValues buf 0 vs) types h1 h2 rfl h4 hge
    rw [r1, r2]
    refine ⟨rfl, ?_, rfl⟩
    rw [sendReport_trace, sendReport_trace]
    have hov := storeValues_overwrite vs
      (reportValues { s with last_send_time := w2.now } w2.now b2 sz2 pc2) buf 0
      (by rw [hvs]; rfl)
    have hrv : reportValues
        { { s with apmon_values := some (storeValues buf 0 vs) } with
          last_send_time := w2.now } w2.now b2 sz2 pc2
        = reportValues { s with last_send_time := w2.now } w2.now b2 sz2 pc2 := rfl
    rw [hrv, hov]

/-- C2 (as the code has it). On a session with transport and arrays, a forced
`PutProgressInfo` makes exactly one call, a send, and leaves `last_send_time`
as it was: the gate is not reset.  A following unforced call is therefore
gated against the `last_send_time` from before the forced call, not against
the time of the forced call: it returns the same status, makes the same calls
and leaves the same `last_send_time` as it would have, had the forced call
not been made. -/
theorem C2_forced_put_keeps_gate (s : State) (h : Ready s) (w w2 : PutWorld)
    (bytecount size bytecount2 size2 : ℤ) (percentage percentage2 : Real64) :
    (PutProgressInfo w bytecount size percentage true s).trace.length = 1
    ∧ (PutProgressInfo w bytecount size percentage true s).trace.countP Call.isSend = 1
    ∧ (PutProgressInfo w bytecount size percentage true s).state.last_send_time
        = s.last_send_time
    ∧ (PutProgressInfo w2 bytecount2 size2 percentage2 false
          (PutProgressInfo w bytecount size percentage true s).state).status
        = (PutProgressInfo w2 bytecount2 size2 percentage2 false s).status
    ∧ (PutProgressInfo w2 bytecount2 size2 percentage2 false
          (PutProgressInfo w bytecount size percentage true s).state).trace
        = (PutProgressInfo w2 bytecount2 size2 percentage2 false s).trace
    ∧ (PutProgressInfo w2 bytecount2 size2 percentage2 false
          (PutProgressInfo w bytecount size percentage true s).state).state.last_send_time
        = (PutProgressInfo w2 bytecount2 size2 percentage2 false s).state.last_send_time := by
  obtain ⟨h1, h2, h3, h4⟩ := h
  obtain ⟨a, h1⟩ := Option.isSome_iff_exists.mp h1
  obtain ⟨params, h2⟩ := Option.isSome_iff_exists.mp h2
  obtain ⟨buf, h3⟩ := Option.isSome_iff_exists.mp h3
  obtain ⟨types, h4⟩ := Option.isSome_iff_exists.mp h4
  have hf := put_forced w bytecount size percentage s a params buf types h1 h2 h3 h4
  have hstate : (PutProgressInfo w bytecount size percentage true s).state
      = { s with apmon_values := some (storeValues buf 0
          (reportValues s w.now bytecount size percentage)) } := by
    rw [hf, sendReport_state]
  obtain ⟨e1, e2, e3⟩ := put_unforced_after_values w2 bytecount2 size2 percentage2 s a params
    buf types (reportValues s w.now bytecount size percentage)
    (reportValues_length _ _ _ _ _) h1 h2 h3 h4
  refine ⟨?_, ?_, ?_, ?_, ?_, ?_⟩
  · rw [hf]; exact (sendReport_countP _ _ _ _ _ _ _ _).1
  · rw [hf]; exact (sendReport_countP _ _ _ _ _ _ _ _).2
  · rw [hstate]
  · rw [hstate]; exact e1
  · rw [hstate]; exact e2
  · rw [hstate]; exact e3

/-- C2, an instance: the sample session, forced report at 1100 s, unforced
call at 1101 s. -/
theorem C2_forced_put_keeps_gate_witness :
    Ready sampleSession
    ∧ (PutProgressInfo ⟨⟨1100, 0⟩, false⟩ 500 1000 (.fin 50) true sampleSession).trace.length = 1
    ∧ (PutProgressInfo ⟨⟨1100, 0⟩, false⟩ 500 1000 (.fin 50) true sampleSession
        ).state.last_send_time = sampleSession.last_send_time :=
  ⟨by decide,
    (C2_forced_put_keeps_gate sampleSession (by decide) ⟨⟨1100, 0⟩, false⟩ ⟨⟨1101, 0⟩, false⟩
      500 1000 510 1000 (.fin 50) (.fin 51)).1,
    (C2_forced_put_keeps_gate sampleSession (by decide) ⟨⟨1100, 0⟩, false⟩ ⟨⟨1101, 0⟩, false⟩
      500 1000 510 1000 (.fin 50) (.fin 51)).2.2.1⟩

/-- C2, the claim as stated fails.  The sample session sends an unforced
report at 1020 s, then a forced one at 1100 s: the forced call sends but
`last_send_time` stays at 1020 s instead of becoming 1100 s, and an unforced
call at 1101 s, one second after the forced one, is sent, not suppressed. -/
theorem C2_forced_put_does_not_reset :
    ((PutProgressInfo ⟨⟨1100, 0⟩, false⟩ 500 1000 (.fin 50) true
        (PutProgressInfo ⟨⟨1020, 0⟩, false⟩ 100 1000 (.fin 10) false sampleSession).state
      ).trace.countP Call.isSend = 1)
    ∧ (PutProgressInfo ⟨⟨1100, 0⟩, false⟩ 500 1000 (.fin 50) true
        (PutProgressInfo ⟨⟨1020, 0⟩, false⟩ 100 1000 (.fin 10) false sampleSession).state
      ).state.last_send_time = ⟨1020, 0⟩
    ∧ (PutProgressInfo ⟨⟨1100, 0⟩, false⟩ 500 1000 (.fin 50) true
        (PutProgressInfo ⟨⟨1020, 0⟩, false⟩ 100 1000 (.fin 10) false sampleSession).state
      ).state.last_send_time ≠ ⟨1100, 0⟩
    ∧ elapsedSeconds ⟨1101, 0⟩ ⟨1100, 0⟩ < 10
    ∧ ((PutProgressInfo ⟨⟨1101, 0⟩, false⟩ 510 1000 (.fin 51) false
        (PutProgressInfo ⟨⟨1100, 0⟩, false⟩ 500 1000 (.fin 50) true
          (PutProgressInfo ⟨⟨1020, 0⟩, false⟩ 100 1000 (.fin 10) false sampleSession).state
        ).state).trace.countP Call.isSend = 1) := by
  have g1 : 10 ≤ wholeSeconds (⟨⟨1020, 0⟩, false⟩ : PutWorld).now
      sampleSession.last_send_time := by decide
  have a1 := sampleSession_armed.after_put ⟨⟨1020, 0⟩, false⟩ 100 1000 (.fin 10) false
  have l1 := put_unforced_armed_last ⟨⟨1020, 0⟩, false⟩ 100 1000 (.fin 10)
    sampleSession sampleSession_armed g1
  have a2 := a1.after_put ⟨⟨1100, 0⟩, false⟩ 500 1000 (.fin 50) true
  have l2 := (put_forced_armed_last ⟨⟨1100, 0⟩, false⟩ 500 1000 (.fin 50) _ a1).trans l1
  have g3 : 10 ≤ wholeSeconds (⟨⟨1101, 0⟩, false⟩ : PutWorld).now
      (PutProgressInfo ⟨⟨1100, 0⟩, false⟩ 500 1000 (.fin 50) true
        (PutProgressInfo ⟨⟨1020, 0⟩, false⟩ 100 1000 (.fin 10) false sampleSession).state
      ).state.last_send_time := by
    rw [l2]; decide
  refine ⟨?_, l2, ?_, ?_, ?_⟩
  · exact put_forced_armed_count ⟨⟨1100, 0⟩, false⟩ 500 1000 (.fin 50) _ a1
  · rw [l2]; decide
  · norm_num [elapsedSeconds]
  · exact put_unforced_armed_count ⟨⟨1101, 0⟩, false⟩ 510 1000 (.fin 51) _ a2 g3

/-! ## Reports after `Init` -/

theorem put_armed_trace (w : PutWorld) (b sz : ℤ) (pc : Real64) (f : Bool) (s : State)
    (h : Armed s) :
    (PutProgressInfo w b sz pc f s).trace = []
    ∨ (PutProgressInfo w b sz pc f s).trace = [batch s w.now b sz pc] := by
  cases f with
  | true => right; rw [put_forced_armed w b sz pc s h]
  | false =>
    rcases lt_or_le (wholeSeconds w.now s.last_send_time) 10 with hlt | hge
    · left; rw [put_suppressed w b sz pc s h.to_ready hlt]
    · right; rw [put_unforced_armed w b sz pc s h hge]

theorem runPuts_state (cs : List PutCall) : ∀ s : State,
    ∃ t v, runPuts s cs = { s with last_send_time := t, apmon_values := v } := by
  induction cs with
  | nil => intro s; exact ⟨s.last_send_time, s.apmon_values, rfl⟩
  | cons c cs ih =>
    intro s
    obtain ⟨t1, v1, h1, -⟩ := put_state c.world c.bytecount c.size c.percentage c.force s
    obtain ⟨t2, v2, h2⟩ := ih (PutProgressInfo c.world c.bytecount c.size c.percentage c.force s).state
    refine ⟨t2, v2, ?_⟩
    show runPuts (PutProgressInfo c.world c.bytecount c.size c.percentage c.force s).state cs = _
    rw [h2, h1]

theorem Init_remote_flags (w : InitWorld) (src dest : String) (debug : ℤ) (s : State)
    (h : (Init w src dest debug s).status ≠ 1) :
    (Init w src dest debug s).state.is_src_remote = isRemote src
    ∧ (Init w src dest debug s).state.is_dst_remote = isRemote dest := by
  obtain ⟨cfg, a, hc, hl, hn⟩ := Init_transport_of_status w src dest debug s h
  rw [Init_of_transport w src dest debug s cfg a hc hl hn]
  cases hlab : hostLabel w with
  | none =>
    unfold hostLabel at hlab
    unfold initHost
    cases h1 : w.getenv "HOSTNAME" with
    | some v => simp [h1] at hlab
    | none =>
      cases h2 : w.getenv "HOST" with
      | some v => simp [h1, h2] at hlab
      | none =>
        cases h3 : w.gethostname with
        | some name => simp [h1, h2, h3] at hlab
        | none => simp [h1, h2, h3]
  | some hn1 =>
    obtain ⟨s1, tr1, he, -, -, -, h4, h5, -⟩ := initHost_of_label w src dest
      { s with abs_start_time := w.now,
               apmon := some { a with confRecheck := false, jobMonitoring := false } }
      [Call.setLogLevel (if debug = 0 then "WARNING" else "DEBUG"), Call.newApMon cfg] hn1 hlab
    obtain ⟨-, -, -, -, -, -, f7, f8⟩ := initAddresses_fields w src dest hn1 s1 tr1
    rw [he, f7, f8]
    exact ⟨h4, h5⟩

theorem toDouble_of_abs_lt (n : ℤ) (h : |n| < 2 ^ 53) : toDouble n = n :=
  rnd_intCast_of_abs_lt 53 n h

theorem addrToDouble_eq (a : ℕ) : addrToDouble a = .fin ((a % 2 ^ 32 : ℕ) : ℚ) := by
  unfold addrToDouble
  have h : |((a % 2 ^ 32 : ℕ) : ℤ)| < 2 ^ 53 := by
    rw [abs_of_nonneg (by positivity)]
    have : a % 2 ^ 32 < 2 ^ 32 := Nat.mod_lt _ (by norm_num)
    have : ((a % 2 ^ 32 : ℕ) : ℤ) < 2 ^ 32 := by exact_mod_cast this
    linarith [show (2 : ℤ) ^ 32 < 2 ^ 53 by norm_num]
  rw [toDouble_of_abs_lt _ h, Int.cast_natCast]

/-- C3. On a session whose `Init` returned 0, after any number of earlier
reports, every call that `PutProgressInfo` makes is one send of exactly nine
parameters, named and ordered total_size, moved_bytes, read_bytes,
written_bytes, speed, elapsed_time, percent, src_IP, dst_IP, all of type
REAL64, whose values are: `size` and `bytecount` converted to double,
`bytecount` or 0 by whether the source (for read_bytes) or the destination
(for written_bytes) starts with `root://`, the `percentage` passed in, and
the two addresses stored by `Init`.  The conversion to double is exact below
2^53 in magnitude. -/
theorem C3_batch_shape (w : InitWorld) (src dest : String) (debug : ℤ) (s0 : State)
    (calls : List PutCall) (pw : PutWorld) (bytecount size : ℤ) (percentage : Real64)
    (force : Bool) (hinit : (Init w src dest debug s0).status = 0) :
    (∀ c ∈ (PutProgressInfo pw bytecount size percentage force
              (runPuts (Init w src dest debug s0).state calls)).trace,
      ∃ bucket entity speed elapsed_time,
        c = Call.sendParameters bucket entity 9
          ["total_size", "moved_bytes", "read_bytes", "written_bytes", "speed",
            "elapsed_time", "percent", "src_IP", "dst_IP"]
          [.XDR_REAL64, .XDR_REAL64, .XDR_REAL64, .XDR_REAL64, .XDR_REAL64, .XDR_REAL64,
            .XDR_REAL64, .XDR_REAL64, .XDR_REAL64]
          [some (.fin (toDouble size)),
            some (.fin (toDouble bytecount)),
            some (.fin (toDouble (if isRemote src then bytecount else 0))),
            some (.fin (toDouble (if isRemote dest then bytecount else 0))),
            some speed,
            some elapsed_time,
            some percentage,
            some (Init w src dest debug s0).state.src_IP,
            some (Init w src dest debug s0).state.dst_IP])
    ∧ (force = true →
        (PutProgressInfo pw bytecount size percentage force
          (runPuts (Init w src dest debug s0).state calls)).trace.length = 1)
    ∧ (∀ n : ℤ, |n| < 2 ^ 53 → toDouble n = n) := by
  have harmed := (Init_armed w src dest debug s0 hinit).after_runPuts calls
  obtain ⟨hsrc, hdst⟩ := Init_remote_flags w src dest debug s0 (by omega)
  obtain ⟨t, v, hrun⟩ := runPuts_state calls (Init w src dest debug s0).state
  refine ⟨?_, ?_, toDouble_of_abs_lt⟩
  · intro c hc
    rcases put_armed_trace pw bytecount size percentage force _ harmed with h | h
    · rw [h] at hc; simp at hc
    · rw [h] at hc
      simp only [List.mem_singleton] at hc
      subst hc
      rw [hrun]
      unfold batch reportValues
      simp only [hsrc, hdst]
      split
      · exact ⟨_, _, _, _, rfl⟩
      · exact ⟨_, _, _, _, rfl⟩
  · intro hf
    subst hf
    rw [put_forced_armed pw bytecount size percentage _ harmed]
    rfl

theorem sampleSession_addresses :
    sampleSession.src_IP = .fin 16909060 ∧ sampleSession.dst_IP = .fin 33686018 := by
  have h1 : sampleSession.src_IP = addrToDouble 16909060 := rfl
  have h2 : sampleSession.dst_IP = addrToDouble 33686018 := rfl
  rw [h1, h2, addrToDouble_eq, addrToDouble_eq]
  norm_num

/-- C3, the instance of the claim: after `Init("root://a.example/f", "/tmp/f",
0, null)` in the sample environment, `PutProgressInfo(500000, 1000000, 50.0,
true)` makes one send with total_size 1000000, moved_bytes 500000,
read_bytes 500000, written_bytes 0 and percent 50. -/
theorem C3_batch_shape_witness :
    (Init sampleWorld "root://a.example/f" "/tmp/f" 0 freshState).status = 0
    ∧ ∃ bucket entity speed elapsed_time,
        (PutProgressInfo ⟨⟨1005, 0⟩, false⟩ 500000 1000000 (.fin 50) true sampleSession).trace
          = [Call.sendParameters bucket entity 9
              ["total_size", "moved_bytes", "read_bytes", "written_bytes", "speed",
                "elapsed_time", "percent", "src_IP", "dst_IP"]
              [.XDR_REAL64, .XDR_REAL64, .XDR_REAL64, .XDR_REAL64, .XDR_REAL64, .XDR_REAL64,
                .XDR_REAL64, .XDR_REAL64, .XDR_REAL64]
              [some (.fin 1000000), some (.fin 500000), some (.fin 500000), some (.fin 0),
                some speed, some elapsed_time, some (.fin 50), some (.fin 16909060),
                some (.fin 33686018)]] := by
  obtain ⟨hall, hlen, hex⟩ := C3_batch_shape sampleWorld "root://a.example/f" "/tmp/f" 0
    freshState [] ⟨⟨1005, 0⟩, false⟩ 500000 1000000 (.fin 50) true (by decide)
  refine ⟨by decide, ?_⟩
  have hlen1 := hlen rfl
  change (PutProgressInfo ⟨⟨1005, 0⟩, false⟩ 500000 1000000 (.fin 50) true
    sampleSession).trace.length = 1 at hlen1
  change ∀ c ∈ (PutProgressInfo ⟨⟨1005, 0⟩, false⟩ 500000 1000000 (.fin 50) true
    sampleSession).trace, _ at hall
  obtain ⟨c, hc⟩ := List.length_eq_one.mp hlen1
  obtain ⟨bucket, entity, speed, elapsed_time, hcall⟩ := hall c (by rw [hc]; simp)
  refine ⟨bucket, entity, speed, elapsed_time, ?_⟩
  rw [hc, hcall]
  have e1 : isRemote "root://a.example/f" = true := by decide
  have e2 : isRemote "/tmp/f" = false := by decide
  have a1 : (Init sampleWorld "root://a.example/f" "/tmp/f" 0 freshState).state.src_IP
      = .fin 16909060 := sampleSession_addresses.1
  have a2 : (Init sampleWorld "root://a.example/f" "/tmp/f" 0 freshState).state.dst_IP
      = .fin 33686018 := sampleSession_addresses.2
  rw [a1, a2, e1, e2]
  simp only [if_true, Bool.false_eq_true, if_false]
  rw [hex 1000000 (by norm_num), hex 500000 (by norm_num), hex 0 (by norm_num)]
  norm_num

theorem resolveSrc_state (w : InitWorld) (src : String) (l : Real64) (s : State) :
    ∃ a b, (resolveSrc w src l s).1 = { s with src_IP := a, dst_IP := b } := by
  unfold resolveSrc
  by_cases h : s.is_src_remote = true
  · cases hg : w.gethostbyname (remoteHost src) with
    | none => exact ⟨s.src_IP, l, by simp [h, hg]⟩
    | some x => exact ⟨addrToDouble x, l, by simp [h, hg]⟩
  · exact ⟨s.src_IP, s.dst_IP, by rw [if_neg h]⟩

theorem resolveDst_state (w : InitWorld) (dest : String) (l : Real64) (s : State) :
    ∃ a b, (resolveDst w dest l s).1 = { s with src_IP := a, dst_IP := b } := by
  unfold resolveDst
  by_cases h : s.is_dst_remote = true
  · cases hg : w.gethostbyname (remoteHost dest) with
    | none => exact ⟨l, s.dst_IP, by simp [h, hg]⟩
    | some x => exact ⟨l, addrToDouble x, by simp [h, hg]⟩
  · exact ⟨s.src_IP, s.dst_IP, by rw [if_neg h]⟩

theorem initAddresses_job_id (w : InitWorld) (src dest hn : String) (s : State)
    (tr : List Call) :
    (initAddresses w src dest hn s tr).state.job_id
      = match w.getenv "ALIEN_PROC_ID" with
        | some a => some a
        | none =>
          match w.getenv "GRID_JOB_ID" with
          | some g => some g
          | none => s.job_id := by
  unfold initAddresses
  simp only
  obtain ⟨a1, b1, h1⟩ := resolveSrc_state w src
    (match w.gethostbyname hn with | some a => addrToDouble a | none => .fin 0) s
  rw [h1]
  obtain ⟨a2, b2, h2⟩ := resolveDst_state w dest
    (match w.gethostbyname hn with | some a => addrToDouble a | none => .fin 0)
    { s with src_IP := a1, dst_IP := b1 }
  rw [h2]
  unfold resolveJobId allocParams
  cases w.getenv "ALIEN_PROC_ID" <;> cases w.getenv "GRID_JOB_ID" <;> simp

/-- The identity and the host label of a session whose `Init`, called on a
constructed object, returned 0. -/
theorem Init_identity (w : InitWorld) (src dest : String) (debug : ℤ) (hn : String)
    (t1 t2 : timeval) (h : (Init w src dest debug (ctor hn t1 t2)).status = 0) :
    (Init w src dest debug (ctor hn t1 t2)).state.job_id
        = (match w.getenv "ALIEN_PROC_ID" with
          | some a => some a
          | none => w.getenv "GRID_JOB_ID")
    ∧ (Init w src dest debug (ctor hn t1 t2)).state.host_name = hostLabel w
    ∧ (hostLabel w).isSome = true := by
  rcases Init_cases w src dest debug (ctor hn t1 t2) with ⟨h1, -⟩ | ⟨h2, -⟩ | h3
  · omega
  · omega
  · obtain ⟨cfg, a, lab, s1, tr1, -, -, -, hlab, he, hh, -, hj, -⟩ := h3
    obtain ⟨-, -, -, -, -, f6, -⟩ := initAddresses_fields w src dest lab s1 tr1
    rw [he, initAddresses_job_id, f6, hh, hlab, hj]
    refine ⟨?_, rfl, rfl⟩
    cases w.getenv "ALIEN_PROC_ID" <;> cases w.getenv "GRID_JOB_ID" <;> rfl

/-- C4. On a session whose `Init`, called on a constructed object, returned
0: the identity `job_id` is the value of `ALIEN_PROC_ID` when that variable
is set, else the value of `GRID_JOB_ID` when that one is set, else absent;
and every send of every later `PutProgressInfo` goes to bucket
`Job_XRD_Transfers` with the identity as entity when there is one, and to
bucket `Other_XRD_Transfers` with the host label as entity when there is
none. -/
theorem C4_identity_routing (w : InitWorld) (src dest : String) (debug : ℤ) (hn : String)
    (t1 t2 : timeval) (calls : List PutCall) (pw : PutWorld) (bytecount size : ℤ)
    (percentage : Real64) (force : Bool)
    (hinit : (Init w src dest debug (ctor hn t1 t2)).status = 0) :
    (∀ a, w.getenv "ALIEN_PROC_ID" = some a →
        (Init w src dest debug (ctor hn t1 t2)).state.job_id = some a)
    ∧ (w.getenv "ALIEN_PROC_ID" = none → ∀ g, w.getenv "GRID_JOB_ID" = some g →
        (Init w src dest debug (ctor hn t1 t2)).state.job_id = some g)
    ∧ (w.getenv "ALIEN_PROC_ID" = none → w.getenv "GRID_JOB_ID" = none →
        (Init w src dest debug (ctor hn t1 t2)).state.job_id = none)
    ∧ (∃ label, (Init w src dest debug (ctor hn t1 t2)).state.host_name = some label
        ∧ hostLabel w = some label)
    ∧ (∀ c ∈ (PutProgressInfo pw bytecount size percentage force
                (runPuts (Init w src dest debug (ctor hn t1 t2)).state calls)).trace,
        ∃ n params types values,
          (∀ id, (Init w src dest debug (ctor hn t1 t2)).state.job_id = some id →
            c = Call.sendParameters "Job_XRD_Transfers" (some id) n params types values)
          ∧ ((Init w src dest debug (ctor hn t1 t2)).state.job_id = none →
            c = Call.sendParameters "Other_XRD_Transfers"
              (Init w src dest debug (ctor hn t1 t2)).state.host_name n params types values)) := by
  obtain ⟨hj, hh, hl⟩ := Init_identity w src dest debug hn t1 t2 hinit
  have harmed := (Init_armed w src dest debug _ hinit).after_runPuts calls
  obtain ⟨t, v, hrun⟩ := runPuts_state calls (Init w src dest debug (ctor hn t1 t2)).state
  refine ⟨?_, ?_, ?_, ?_, ?_⟩
  · intro a ha; rw [hj, ha]
  · intro ha g hg; rw [hj, ha, hg]
  · intro ha hg; rw [hj, ha, hg]
  · obtain ⟨label, hlabel⟩ := Option.isSome_iff_exists.mp hl
    exact ⟨label, by rw [hh, hlabel], hlabel⟩
  · intro c hc
    rcases put_armed_trace pw bytecount size percentage force _ harmed with h | h
    · rw [h] at hc; simp at hc
    · rw [h] at hc
      simp only [List.mem_singleton] at hc
      subst hc
      rw [hrun]
      refine ⟨9, paramNames, List.replicate 9 XdrType.XDR_REAL64,
        (reportValues { (Init w src dest debug (ctor hn t1 t2)).state with
          last_send_time := t, apmon_values := v } pw.now bytecount size percentage).map some,
        ?_, ?_⟩
      · intro id hid
        unfold batch
        simp only [hid]
      · intro hid
        unfold batch
        simp only [hid]

/-- C4, an instance: with `ALIEN_PROC_ID=4711` the identity is `4711`. -/
theorem C4_identity_routing_witness :
    (Init jobWorld "root://a.example/f" "/tmp/f" 0 (ctor "" ⟨0, 0⟩ ⟨0, 0⟩)).status = 0
    ∧ (Init jobWorld "root://a.example/f" "/tmp/f" 0 (ctor "" ⟨0, 0⟩ ⟨0, 0⟩)).state.job_id
        = some "4711" :=
  ⟨by decide,
    (C4_identity_routing jobWorld "root://a.example/f" "/tmp/f" 0 "" ⟨0, 0⟩ ⟨0, 0⟩ []
      ⟨⟨1005, 0⟩, false⟩ 500000 1000000 (.fin 50) true (by decide)).1 "4711" (by decide)⟩

/-! ## Endpoints -/

theorem strstr_eq_zero_iff (hay needle : List Char) :
    strstr hay needle = some 0 ↔ needle <+: hay := by
  cases hay with
  | nil =>
    unfold strstr
    rw [← List.isPrefixOf_iff_prefix]
    split <;> simp_all
  | cons c cs =>
    unfold strstr
    rw [← List.isPrefixOf_iff_prefix]
    split
    · simp_all
    · rename_i h
      simp only [h, Bool.false_eq_true, iff_false]
      cases strstr cs needle <;> simp

theorem isRemote_iff (url : String) : isRemote url = true ↔ "root://".toList <+: url.toList := by
  unfold isRemote ROOT_SCHEME
  rw [decide_eq_true_iff, strstr_eq_zero_iff]

theorem hostLen_le (l : List Char) : hostLen l ≤ l.length := by
  induction l with
  | nil => simp [hostLen]
  | cons c cs ih => unfold hostLen; split <;> simp; omega

theorem hostLen_clean (l : List Char) : ∀ c ∈ l.take (hostLen l), c ≠ ':' ∧ c ≠ '/' := by
  induction l with
  | nil => simp [hostLen]
  | cons c cs ih =>
    unfold hostLen
    split
    · rename_i h
      intro x hx
      simp only [List.take_succ_cons, List.mem_cons] at hx
      rcases hx with rfl | hx
      · exact h
      · exact ih x hx
    · simp

theorem hostLen_stop (l : List Char) :
    l.drop (hostLen l) = [] ∨ ∃ c t, l.drop (hostLen l) = c :: t ∧ (c = ':' ∨ c = '/') := by
  induction l with
  | nil => left; simp [hostLen]
  | cons c cs ih =>
    unfold hostLen
    split
    · simpa using ih
    · rename_i h
      right
      refine ⟨c, cs, by simp, ?_⟩
      by_contra hc
      exact h ⟨fun e => hc (Or.inl e), fun e => hc (Or.inr e)⟩

theorem hostLen_longest (l : List Char) :
    ∀ l2 : List Char, l2 <+: l → (∀ c ∈ l2, c ≠ ':' ∧ c ≠ '/') → l2 <+: l.take (hostLen l) := by
  induction l with
  | nil => intro l2 h _; simpa [hostLen] using h
  | cons c cs ih =>
    intro l2 h hok
    cases l2 with
    | nil => exact List.nil_prefix
    | cons d ds =>
      obtain ⟨hd, hds⟩ := List.cons_prefix_cons.mp h
      subst hd
      have hc : d ≠ ':' ∧ d ≠ '/' := hok d (by simp)
      unfold hostLen
      rw [if_pos hc, List.take_succ_cons]
      exact List.cons_prefix_cons.mpr ⟨rfl, ih ds hds (fun x hx => hok x (by simp [hx]))⟩

theorem initAddresses_trace (w : InitWorld) (src dest hn : String) (s : State)
    (tr : List Call) :
    (initAddresses w src dest hn s tr).trace
      = tr ++ [Call.gethostbyname hn]
        ++ (if s.is_src_remote then [Call.gethostbyname (remoteHost src)] else [])
        ++ (if s.is_dst_remote then [Call.gethostbyname (remoteHost dest)] else []) := by
  unfold initAddresses
  simp only
  obtain ⟨a1, b1, h1⟩ := resolveSrc_state w src
    (match w.gethostbyname hn with | some a => addrToDouble a | none => .fin 0) s
  have e1 : (resolveSrc w src (match w.gethostbyname hn with
      | some a => addrToDouble a | none => .fin 0) s).2
      = (if s.is_src_remote then [Call.gethostbyname (remoteHost src)] else []) := by
    unfold resolveSrc; split <;> rfl
  have e2 : (resolveDst w dest (match w.gethostbyname hn with
      | some a => addrToDouble a | none => .fin 0)
      (resolveSrc w src (match w.gethostbyname hn with
        | some a => addrToDouble a | none => .fin 0) s).1).2
      = (if s.is_dst_remote then [Call.gethostbyname (remoteHost dest)] else []) := by
    rw [h1]; unfold resolveDst; split <;> simp_all
  rw [e1, e2]

/-- The calls of a successful `Init`: the resolver is asked for the host
label, then for the host of a remote source, then for the host of a remote
destination, and for nothing else. -/
theorem Init_trace (w : InitWorld) (src dest : String) (debug : ℤ) (s : State)
    (h : (Init w src dest debug s).status = 0) :
    ∃ pre label, hostLabel w = some label
      ∧ (∀ name, Call.gethostbyname name ∉ pre)
      ∧ (Init w src dest debug s).trace
        = pre ++ [Call.gethostbyname label]
          ++ (if isRemote src then [Call.gethostbyname (remoteHost src)] else [])
          ++ (if isRemote dest then [Call.gethostbyname (remoteHost dest)] else []) := by
  obtain ⟨cfg, a, hc, hl, hn⟩ := Init_transport_of_status w src dest debug s (by omega)
  rw [Init_of_transport w src dest debug s cfg a hc hl hn] at h ⊢
  cases hlab : hostLabel w with
  | none =>
    rw [(initHost_no_label w src dest _ _ hlab).1] at h
    omega
  | some label =>
    obtain ⟨s1, tr1, he, -, -, -, h4, h5, -, -, htr⟩ := initHost_of_label w src dest
      { s with abs_start_time := w.now,
               apmon := some { a with confRecheck := false, jobMonitoring := false } }
      [Call.setLogLevel (if debug = 0 then "WARNING" else "DEBUG"), Call.newApMon cfg]
      label hlab
    refine ⟨tr1, label, rfl, ?_, ?_⟩
    · intro name
      rcases htr with rfl | rfl <;> simp
    · rw [he, initAddresses_trace, h4, h5]

theorem remoteHost_toList (url : String) :
    (remoteHost url).toList = (url.toList.drop 7).take (hostLen (url.toList.drop 7)) := rfl

/-- C6. Whenever `Init` gets as far as the endpoints (it does not return 1),
it marks an endpoint remote exactly when the endpoint begins with `root://`.
When it returns 0, the resolver is asked for the host label and then, for
each remote endpoint, for `remoteHost` of that endpoint, and nothing else.
For a remote endpoint, `remoteHost` is the longest prefix of the text after
`root://` that holds neither `:` nor `/`: the text after `root://` is
`remoteHost` followed by a tail that is empty or starts with `:` or `/`. -/
theorem C6_endpoint_classification (w : InitWorld) (src dest : String) (debug : ℤ)
    (s0 : State) (h : (Init w src dest debug s0).status ≠ 1) :
    ((Init w src dest debug s0).state.is_src_remote = true ↔ "root://".toList <+: src.toList)
    ∧ ((Init w src dest debug s0).state.is_dst_remote = true
        ↔ "root://".toList <+: dest.toList)
    ∧ ((Init w src dest debug s0).status = 0 →
        ∃ pre label, (∀ name, Call.gethostbyname name ∉ pre)
          ∧ (Init w src dest debug s0).trace
            = pre ++ [Call.gethostbyname label]
              ++ (if (Init w src dest debug s0).state.is_src_remote
                  then [Call.gethostbyname (remoteHost src)] else [])
              ++ (if (Init w src dest debug s0).state.is_dst_remote
                  then [Call.gethostbyname (remoteHost dest)] else []))
    ∧ (∀ url : String, "root://".toList <+: url.toList →
        ∃ rest tail, url.toList = "root://".toList ++ rest
          ∧ rest = (remoteHost url).toList ++ tail
          ∧ (∀ c ∈ (remoteHost url).toList, c ≠ ':' ∧ c ≠ '/')
          ∧ (tail = [] ∨ ∃ c t, tail = c :: t ∧ (c = ':' ∨ c = '/'))
          ∧ (∀ l, l <+: rest → (∀ c ∈ l, c ≠ ':' ∧ c ≠ '/') →
              l <+: (remoteHost url).toList)) := by
  obtain ⟨hsrc, hdst⟩ := Init_remote_flags w src dest debug s0 h
  refine ⟨?_, ?_, ?_, ?_⟩
  · rw [hsrc]; exact isRemote_iff src
  · rw [hdst]; exact isRemote_iff dest
  · intro h0
    obtain ⟨pre, label, -, hpre, htr⟩ := Init_trace w src dest debug s0 h0
    exact ⟨pre, label, hpre, by rw [hsrc, hdst]; exact htr⟩
  · intro url hp
    obtain ⟨rest, hrest⟩ := hp
    have hdrop : url.toList.drop 7 = rest := by
      rw [← hrest]; exact List.drop_left' (by decide)
    refine ⟨rest, rest.drop (hostLen rest), hrest.symm, ?_, ?_, ?_, ?_⟩
    · rw [remoteHost_toList, hdrop, List.take_append_drop]
    · rw [remoteHost_toList, hdrop]; exact hostLen_clean rest
    · exact hostLen_stop rest
    · rw [remoteHost_toList, hdrop]; exact hostLen_longest rest

/-- C6, the instance of the claim: `root://host:port/path` is remote with
host `host`, which is what the resolver is asked for; `/local/path` is not
remote. -/
theorem C6_endpoint_classification_witness :
    (Init sampleWorld "root://host:port/path" "/local/path" 0 freshState).status ≠ 1
    ∧ (Init sampleWorld "root://host:port/path" "/local/path" 0 freshState
        ).state.is_src_remote = true
    ∧ ¬ (Init sampleWorld "root://host:port/path" "/local/path" 0 freshState
        ).state.is_dst_remote = true
    ∧ remoteHost "root://host:port/path" = "host"
    ∧ Call.gethostbyname "host"
        ∈ (Init sampleWorld "root://host:port/path" "/local/path" 0 freshState).trace :=
  ⟨by decide,
    (C6_endpoint_classification sampleWorld "root://host:port/path" "/local/path" 0 freshState
      (by decide)).1.mpr (by decide),
    fun hd => absurd
      ((C6_endpoint_classification sampleWorld "root://host:port/path" "/local/path" 0
        freshState (by decide)).2.1.mp hd) (by decide),
    by decide, by decide⟩

/-! ## Addresses -/

theorem resolveSrc_eq (w : InitWorld) (src : String) (l : Real64) (s : State) :
    (resolveSrc w src l s).1
      = { s with
          src_IP := if s.is_src_remote then
              (match w.gethostbyname (remoteHost src) with
               | some a => addrToDouble a
               | none => s.src_IP)
            else s.src_IP
          dst_IP := if s.is_src_remote then l else s.dst_IP } := by
  unfold resolveSrc
  cases s with
  | mk i1 i2 i3 i4 i5 i6 i7 i8 i9 isrc idst i12 i13 i14 i15 =>
    cases isrc
    · rfl
    · cases hg : w.gethostbyname (remoteHost src) <;> simp [hg]

theorem resolveDst_eq (w : InitWorld) (dest : String) (l : Real64) (s : State) :
    (resolveDst w dest l s).1
      = { s with
          dst_IP := if s.is_dst_remote then
              (match w.gethostbyname (remoteHost dest) with
               | some a => addrToDouble a
               | none => s.dst_IP)
            else s.dst_IP
          src_IP := if s.is_dst_remote then l else s.src_IP } := by
  unfold resolveDst
  cases s with
  | mk i1 i2 i3 i4 i5 i6 i7 i8 i9 isrc idst i12 i13 i14 i15 =>
    cases idst
    · rfl
    · cases hg : w.gethostbyname (remoteHost dest) <;> simp [hg]

theorem resolveJobId_state (w : InitWorld) (s : State) :
    ∃ j, resolveJobId w s = { s with job_id := j } := by
  unfold resolveJobId
  split
  · exact ⟨_, rfl⟩
  · split
    · exact ⟨_, rfl⟩
    · exact ⟨s.job_id, rfl⟩

theorem initAddresses_addresses (w : InitWorld) (src dest hn : String) (s : State)
    (tr : List Call) :
    (initAddresses w src dest hn s tr).state.src_IP
      = (if s.is_dst_remote then localIP w hn
         else if s.is_src_remote then
           (match w.gethostbyname (remoteHost src) with
            | some a => addrToDouble a
            | none => s.src_IP)
         else s.src_IP)
    ∧ (initAddresses w src dest hn s tr).state.dst_IP
      = (if s.is_dst_remote then
           (match w.gethostbyname (remoteHost dest) with
            | some a => addrToDouble a
            | none => if s.is_src_remote then localIP w hn else s.dst_IP)
         else if s.is_src_remote then localIP w hn else s.dst_IP) := by
  unfold initAddresses
  simp only
  rw [resolveSrc_eq, resolveDst_eq]
  obtain ⟨j, hj⟩ := resolveJobId_state w
    { s with
      src_IP := if s.is_dst_remote then
          (match w.gethostbyname hn with | some a => addrToDouble a | none => .fin 0)
        else if s.is_src_remote then
          (match w.gethostbyname (remoteHost src) with
           | some a => addrToDouble a
           | none => s.src_IP)
        else s.src_IP
      dst_IP := if s.is_dst_remote then
          (match w.gethostbyname (remoteHost dest) with
           | some a => addrToDouble a
           | none => if s.is_src_remote then
               (match w.gethostbyname hn with | some a => addrToDouble a | none => .fin 0)
             else s.dst_IP)
        else if s.is_src_remote then
          (match w.gethostbyname hn with | some a => addrToDouble a | none => .fin 0)
        else s.dst_IP }
  unfold localIP
  cases hs : s.is_src_remote <;> cases hd : s.is_dst_remote <;>
    simp only [hs, hd, Bool.false_eq_true, if_false, if_true] at hj ⊢ <;>
    rw [hj] <;> exact ⟨rfl, rfl⟩

/-- The two addresses a successful `Init` stores. -/
theorem Init_addresses (w : InitWorld) (src dest : String) (debug : ℤ) (s : State)
    (cfg : String) (a : ApMon) (label : String)
    (hc : w.getenv "APMON_CONFIG" = some cfg) (hl : cfg.length ≠ 0)
    (hn : w.newApMon cfg = some a) (hlab : hostLabel w = some label) :
    (Init w src dest debug s).status = 0
    ∧ (Init w src dest debug s).state.src_IP
      = (if isRemote dest then localIP w label
         else if isRemote src then
           (match w.gethostbyname (remoteHost src) with
            | some x => addrToDouble x
            | none => .fin 0)
         else .fin 0)
    ∧ (Init w src dest debug s).state.dst_IP
      = (if isRemote dest then
           (match w.gethostbyname (remoteHost dest) with
            | some x => addrToDouble x
            | none => if isRemote src then localIP w label else .fin 0)
         else if isRemote src then localIP w label else .fin 0) := by
  rw [Init_of_transport w src dest debug s cfg a hc hl hn]
  obtain ⟨s1, tr1, he, -, -, -, h4, h5, h6, h7, -⟩ := initHost_of_label w src dest
    { s with abs_start_time := w.now,
             apmon := some { a with confRecheck := false, jobMonitoring := false } }
    [Call.setLogLevel (if debug = 0 then "WARNING" else "DEBUG"), Call.newApMon cfg]
    label hlab
  obtain ⟨e1, e2⟩ := initAddresses_addresses w src dest label s1 tr1
  rw [he, e1, e2, h4, h5, h6, h7]
  exact ⟨rfl, rfl, rfl⟩

/-- C7 (as the code has it). Given a valid configuration, a constructed
transport and a host label, `Init` returns 0 whatever the resolver answers.
When exactly one endpoint is remote and its host does not resolve, the
address stored for that endpoint is 0, and it is what every later report
carries in its `src_IP` (remote source) or `dst_IP` (remote destination)
slot.  When both endpoints are remote, `src_IP` is the local address
whatever the resolver says of the source, and `dst_IP` is the local address
when the destination does not resolve. -/
theorem C7_unresolved_address (w : InitWorld) (src dest : String) (debug : ℤ) (s0 : State)
    (cfg : String) (a : ApMon) (label : String)
    (hc : w.getenv "APMON_CONFIG" = some cfg) (hl : cfg.length ≠ 0)
    (hn : w.newApMon cfg = some a) (hlab : hostLabel w = some label) :
    (Init w src dest debug s0).status = 0
    ∧ (isRemote src = true → isRemote dest = false →
        w.gethostbyname (remoteHost src) = none →
        (Init w src dest debug s0).state.src_IP = .fin 0)
    ∧ (isRemote src = false → isRemote dest = true →
        w.gethostbyname (remoteHost dest) = none →
        (Init w src dest debug s0).state.dst_IP = .fin 0)
    ∧ (isRemote src = true → isRemote dest = true →
        (Init w src dest debug s0).state.src_IP = localIP w label
        ∧ (w.gethostbyname (remoteHost dest) = none →
            (Init w src dest debug s0).state.dst_IP = localIP w label))
    ∧ (∀ (calls : List PutCall) (pw : PutWorld) (bytecount size : ℤ) (percentage : Real64)
        (force : Bool),
        ∀ c ∈ (PutProgressInfo pw bytecount size percentage force
                (runPuts (Init w src dest debug s0).state calls)).trace,
          ∃ bucket entity n params types v0 v1 v2 v3 v4 v5 v6,
            c = Call.sendParameters bucket entity n params types
              [v0, v1, v2, v3, v4, v5, v6,
                some (Init w src dest debug s0).state.src_IP,
                some (Init w src dest debug s0).state.dst_IP]) := by
  obtain ⟨h0, hsrc, hdst⟩ := Init_addresses w src dest debug s0 cfg a label hc hl hn hlab
  refine ⟨h0, ?_, ?_, ?_, ?_⟩
  · intro h1 h2 h3
    rw [hsrc, h1, h2, h3]; rfl
  · intro h1 h2 h3
    rw [hdst, h1, h2, h3]; rfl
  · intro h1 h2
    refine ⟨by rw [hsrc, h2]; rfl, fun h3 => ?_⟩
    rw [hdst, h1, h2, h3]; rfl
  · intro calls pw bytecount size percentage force c hcm
    have harmed := (Init_armed w src dest debug s0 h0).after_runPuts calls
    obtain ⟨t, v, hrun⟩ := runPuts_state calls (Init w src dest debug s0).state
    rcases put_armed_trace pw bytecount size percentage force _ harmed with h | h
    · rw [h] at hcm; simp at hcm
    · rw [h] at hcm
      simp only [List.mem_singleton] at hcm
      subst hcm
      rw [hrun]
      unfold batch reportValues
      simp only
      split
      · exact ⟨_, _, _, _, _, _, _, _, _, _, _, _, rfl⟩
      · exact ⟨_, _, _, _, _, _, _, _, _, _, _, _, rfl⟩

/-- C7, an instance: a remote source that does not resolve, a local
destination. -/
theorem C7_unresolved_address_witness :
    deafWorld.getenv "APMON_CONFIG" = some "mon.example:8884"
    ∧ "mon.example:8884".length ≠ 0
    ∧ deafWorld.newApMon "mon.example:8884" = some ⟨"mon.example:8884", true, true⟩
    ∧ hostLabel deafWorld = some "client.example"
    ∧ (Init deafWorld "root://a.example/f" "/tmp/f" 0 freshState).status = 0
    ∧ (Init deafWorld "root://a.example/f" "/tmp/f" 0 freshState).state.src_IP = .fin 0 :=
  ⟨by decide, by decide, by decide, by decide,
    (C7_unresolved_address deafWorld "root://a.example/f" "/tmp/f" 0 freshState
      "mon.example:8884" ⟨"mon.example:8884", true, true⟩ "client.example"
      (by decide) (by decide) (by decide) (by decide)).1,
    (C7_unresolved_address deafWorld "root://a.example/f" "/tmp/f" 0 freshState
      "mon.example:8884" ⟨"mon.example:8884", true, true⟩ "client.example"
      (by decide) (by decide) (by decide) (by decide)).2.1 (by decide) (by decide) (by decide)⟩

/-- C7, the claim as stated fails.  Both endpoints are remote and neither
host resolves; `Init` returns 0, but the addresses stored for the two
endpoints are the local address 33686018, not 0. -/
theorem C7_both_remote_not_zero :
    isRemote "root://a.example/f" = true
    ∧ isRemote "root://b.example/g" = true
    ∧ deafWorld.gethostbyname (remoteHost "root://a.example/f") = none
    ∧ deafWorld.gethostbyname (remoteHost "root://b.example/g") = none
    ∧ (Init deafWorld "root://a.example/f" "root://b.example/g" 0 freshState).status = 0
    ∧ (Init deafWorld "root://a.example/f" "root://b.example/g" 0 freshState).state.src_IP
        = .fin 33686018
    ∧ (Init deafWorld "root://a.example/f" "root://b.example/g" 0 freshState).state.dst_IP
        = .fin 33686018
    ∧ (Init deafWorld "root://a.example/f" "root://b.example/g" 0 freshState).state.src_IP
        ≠ .fin 0
    ∧ (Init deafWorld "root://a.example/f" "root://b.example/g" 0 freshState).state.dst_IP
        ≠ .fin 0 := by
  have h1 : (Init deafWorld "root://a.example/f" "root://b.example/g" 0 freshState).state.src_IP
      = addrToDouble 33686018 := rfl
  have h2 : (Init deafWorld "root://a.example/f" "root://b.example/g" 0 freshState).state.dst_IP
      = addrToDouble 33686018 := rfl
  have h3 : addrToDouble 33686018 = .fin 33686018 := by
    rw [addrToDouble_eq]; norm_num
  refine ⟨by decide, by decide, by decide, by decide, by decide, ?_, ?_, ?_, ?_⟩
  · rw [h1, h3]
  · rw [h2, h3]
  · rw [h1, h3]; intro h; injection h with h; norm_num at h
  · rw [h2, h3]; intro h; injection h with h; norm_num at h

/-! ## The host label -/

theorem Init_host_label (w : InitWorld) (src dest : String) (debug : ℤ) (s : State)
    (cfg : String) (a : ApMon)
    (hc : w.getenv "APMON_CONFIG" = some cfg) (hl : cfg.length ≠ 0)
    (hn : w.newApMon cfg = some a) :
    (Init w src dest debug s).state.host_name = hostLabel w
    ∧ (Init w src dest debug s).status = (if (hostLabel w).isSome then 0 else 2) := by
  rw [Init_of_transport w src dest debug s cfg a hc hl hn]
  cases hlab : hostLabel w with
  | none =>
    obtain ⟨h1, h2⟩ := initHost_no_label w src dest
      { s with abs_start_time := w.now,
               apmon := some { a with confRecheck := false, jobMonitoring := false } }
      [Call.setLogLevel (if debug = 0 then "WARNING" else "DEBUG"), Call.newApMon cfg] hlab
    exact ⟨h2, h1⟩
  | some label =>
    obtain ⟨s1, tr1, he, h1, -⟩ := initHost_of_label w src dest
      { s with abs_start_time := w.now,
               apmon := some { a with confRecheck := false, jobMonitoring := false } }
      [Call.setLogLevel (if debug = 0 then "WARNING" else "DEBUG"), Call.newApMon cfg]
      label hlab
    obtain ⟨-, -, -, -, -, f6, -⟩ := initAddresses_fields w src dest label s1 tr1
    rw [he]
    exact ⟨by rw [f6, h1], rfl⟩

/-- C8 (as the code has it). With a valid configuration and a constructed
transport, the host label is the value of `HOSTNAME` when that variable is
set, else the value of `HOST` when that one is set, else the system name
(cut to 255 characters) when `gethostname` succeeds, and in these three
cases `Init` returns 0, also when the name is empty; `Init` returns 2
exactly when both variables are unset and `gethostname` fails. -/
theorem C8_host_label (w : InitWorld) (src dest : String) (debug : ℤ) (s0 : State)
    (cfg : String) (a : ApMon)
    (hc : w.getenv "APMON_CONFIG" = some cfg) (hl : cfg.length ≠ 0)
    (hn : w.newApMon cfg = some a) :
    (∀ v, w.getenv "HOSTNAME" = some v →
        (Init w src dest debug s0).state.host_name = some v
        ∧ (Init w src dest debug s0).status = 0)
    ∧ (w.getenv "HOSTNAME" = none → ∀ v, w.getenv "HOST" = some v →
        (Init w src dest debug s0).state.host_name = some v
        ∧ (Init w src dest debug s0).status = 0)
    ∧ (w.getenv "HOSTNAME" = none → w.getenv "HOST" = none →
        ∀ name, w.gethostname = some name →
        (Init w src dest debug s0).state.host_name = some (name.take 255)
        ∧ (Init w src dest debug s0).status = 0)
    ∧ ((Init w src dest debug s0).status = 2
        ↔ w.getenv "HOSTNAME" = none ∧ w.getenv "HOST" = none ∧ w.gethostname = none)
    ∧ ((Init w src dest debug s0).status = 0 ∨ (Init w src dest debug s0).status = 2) := by
  obtain ⟨hh, hs⟩ := Init_host_label w src dest debug s0 cfg a hc hl hn
  rw [hh, hs]
  unfold hostLabel
  refine ⟨?_, ?_, ?_, ?_, ?_⟩
  · intro v h1; simp [h1]
  · intro h1 v h2; simp [h1, h2]
  · intro h1 h2 name h3; simp [h1, h2, h3]
  · cases w.getenv "HOSTNAME" <;> cases w.getenv "HOST" <;> cases w.gethostname <;> simp
  · cases w.getenv "HOSTNAME" <;> cases w.getenv "HOST" <;> cases w.gethostname <;> simp

/-- C8, an instance: in the sample environment `HOSTNAME` is the label. -/
theorem C8_host_label_witness :
    sampleWorld.getenv "APMON_CONFIG" = some "mon.example:8884"
    ∧ "mon.example:8884".length ≠ 0
    ∧ sampleWorld.newApMon "mon.example:8884" = some ⟨"mon.example:8884", true, true⟩
    ∧ (Init sampleWorld "root://a.example/f" "/tmp/f" 0 freshState).state.host_name
        = some "client.example"
    ∧ (Init sampleWorld "root://a.example/f" "/tmp/f" 0 freshState).status = 0 :=
  ⟨by decide, by decide, by decide,
    (C8_host_label sampleWorld "root://a.example/f" "/tmp/f" 0 freshState "mon.example:8884"
      ⟨"mon.example:8884", true, true⟩ (by decide) (by decide) (by decide)).1
      "client.example" (by decide)⟩

/-- C8, the claim as stated fails.  With `HOSTNAME` set to the empty string,
`HOST` unset and `gethostname` failing, no source yields a non-empty name,
yet `Init` returns 0, not 2, and the host label is empty. -/
theorem C8_empty_label_accepted :
    namelessWorld.getenv "APMON_CONFIG" = some "mon.example:8884"
    ∧ namelessWorld.getenv "HOSTNAME" = some ""
    ∧ namelessWorld.getenv "HOST" = none
    ∧ namelessWorld.gethostname = none
    ∧ (Init namelessWorld "root://a.example/f" "/tmp/f" 0 freshState).status = 0
    ∧ (Init namelessWorld "root://a.example/f" "/tmp/f" 0 freshState).status ≠ 2
    ∧ (Init namelessWorld "root://a.example/f" "/tmp/f" 0 freshState).state.host_name
        = some "" := by
  decide

end XrdCpapMon
